import Mathlib

/-! I2C master / EzI2C slave packet exchange

A shallow embedding of `source/I2CMaster.c` (`WritePacketToEzI2C`,
`ReadStatusPacketFromEzI2C`) and `source/I2CSlave.c` (`CheckEzI2Cbuffer`).

* Bytes and 32-bit words are natural numbers; the only arithmetic that can
  leave its range, the decrement of the `uint32_t` countdown, is taken
  modulo `2^32`.
* The peripheral driver library is an external collaborator.  The values
  of its flag macros are parameters (`Pdl`); the answers it gives to the
  calls made by the program are an oracle (`Transport`, the activity word).
* Every call into the driver library, and every access to the shared slave
  buffer, is logged as an `Event`, in program order.
-/

namespace EzI2C

/-! ## Constants -/

/-- `PACKET_SOP` of I2CSlave.c; I2CMaster.c takes the same name from its header. -/
def PACKET_SOP : Nat := 0x01
/-- `PACKET_EOP` of I2CSlave.c; I2CMaster.c takes the same name from its header. -/
def PACKET_EOP : Nat := 0x17
/-- `STS_CMD_DONE` (both files). -/
def STS_CMD_DONE : Nat := 0x00
/-- `STS_CMD_FAIL` (both files). -/
def STS_CMD_FAIL : Nat := 0xFF
/-- `TRANSFER_ERROR` of I2CMaster.c. -/
def TRANSFER_ERROR : Nat := 0xFF
/-- `READ_PACKET_SIZE` of I2CMaster.c. -/
def READ_PACKET_SIZE : Nat := 0x08
/-- `EZI2C_RPLY_SOP_POS` of I2CMaster.c. -/
def EZI2C_RPLY_SOP_POS : Nat := 5
/-- `EZI2C_RPLY_STS_POS` of I2CMaster.c. -/
def EZI2C_RPLY_STS_POS : Nat := 6
/-- `EZI2C_RPLY_EOP_POS` of I2CMaster.c. -/
def EZI2C_RPLY_EOP_POS : Nat := 7
/-- `EZI2C_BUFFER_SIZE` of I2CSlave.c. -/
def EZI2C_BUFFER_SIZE : Nat := 0x08
/-- `EzPACKET_SOP_POS` of I2CSlave.c. -/
def EzPACKET_SOP_POS : Nat := 0x00
/-- `EzPACKET_CMD_POS` of I2CSlave.c. -/
def EzPACKET_CMD_POS : Nat := 0x01
/-- `EzPACKET_EOP_POS` of I2CSlave.c. -/
def EzPACKET_EOP_POS : Nat := 0x02
/-- `PACKET_RPLY_SOP_POS` of I2CSlave.c. -/
def PACKET_RPLY_SOP_POS : Nat := 0x05
/-- `PACKET_RPLY_STS_POS` of I2CSlave.c. -/
def PACKET_RPLY_STS_POS : Nat := 0x06
/-- `PACKET_RPLY_EOP_POS` of I2CSlave.c. -/
def PACKET_RPLY_EOP_POS : Nat := 0x07
/-- `ZERO` of I2CSlave.c. -/
def ZERO : Nat := 0

/-- Modelled from the spec: the macro `WRITE_PACKET_SIZE` is declared in
I2CMaster.h, which is not among the sources.  The spec fixes the outbound
command frame at 4 bytes (`[dest_address, start_marker, payload, end_marker]`),
the four positions main.c fills in its `buffer[WRITE_PACKET_SIZE]`. -/
def WRITE_PACKET_SIZE : Nat := 4

/-- Modelled from the spec: the macro `TRANSFER_CMPLT` is declared in
I2CMaster.h, which is not among the sources.  The spec keeps the outcome
`Complete` apart from `Failed`, so it is a status byte other than
`TRANSFER_ERROR` (0xFF); the byte 0x00 is taken for it. -/
def TRANSFER_CMPLT : Nat := 0x00

/-- The initial value of the countdown in both master operations
(`uint32_t timeout = 1000000UL`). -/
def TIMEOUT_INIT : Nat := 1000000

/-- The macros and configuration values of the peripheral driver library
and of the board support package that the three source files use but do not
define.  They are parameters of the embedding. -/
structure Pdl where
  CY_SCB_I2C_SUCCESS : Nat
  CY_SCB_I2C_MASTER_BUSY : Nat
  CY_SCB_I2C_MASTER_DATA_NAK : Nat
  CY_SCB_I2C_MASTER_ADDR_NAK : Nat
  CY_SCB_I2C_MASTER_ARB_LOST : Nat
  CY_SCB_I2C_MASTER_ABORT_START : Nat
  CY_SCB_I2C_MASTER_BUS_ERR : Nat
  CY_SCB_WAIT_1_UNIT : Nat
  CY_SCB_EZI2C_STATUS_WRITE1 : Nat
  CY_SCB_EZI2C_STATUS_ERR : Nat
  CYBSP_EZI2C_IRQ : Nat
  deriving Repr

/-- `MASTER_ERROR_MASK` of I2CMaster.c: the five master error statuses
combined in one mask. -/
def MASTER_ERROR_MASK (P : Pdl) : Nat :=
  P.CY_SCB_I2C_MASTER_DATA_NAK ||| P.CY_SCB_I2C_MASTER_ADDR_NAK |||
  P.CY_SCB_I2C_MASTER_ARB_LOST ||| P.CY_SCB_I2C_MASTER_ABORT_START |||
  P.CY_SCB_I2C_MASTER_BUS_ERR

/-! ## Effects -/

/-- The calls into the driver library and the accesses to the slave's
shared buffer, as they appear in the source. -/
inductive Event where
  | Cy_SCB_I2C_MasterWrite (buffer : List Nat) (bufferSize : Nat)
  | Cy_SCB_I2C_MasterRead (bufferSize : Nat)
  | Cy_SCB_I2C_MasterGetStatus
  | Cy_SysLib_DelayUs (us : Nat)
  | Cy_SCB_I2C_Disable
  | Cy_SCB_I2C_Enable
  | Cy_SCB_I2C_MasterGetTransferCount
  | NVIC_DisableIRQ (src : Nat)
  | NVIC_EnableIRQ (src : Nat)
  | Cy_SCB_EZI2C_GetActivity
  | Cy_GPIO_Write (value : Nat)
  | BufferRead (pos : Nat)
  | BufferWrite (pos : Nat) (value : Nat)
  deriving DecidableEq, Repr

/-- The answers of the I2C master driver to one master operation: the
return value of the submission call, the value returned by the k-th status
query (counted from 0), the transfer count it reports, and the bytes found
in the receive buffer when the program inspects it. -/
structure Transport where
  submit : Nat
  status : Nat → Nat
  count : Nat
  rx : List Nat

/-! ## I2CMaster.c -/

/-- The local variables of the polling loop, with the number of status
queries made so far and the effects so far. -/
structure LoopState where
  masterStatus : Nat
  timeout : Nat
  polls : Nat
  trace : List Event
  deriving DecidableEq, Repr

/-- One pass through the body of the `do ... while` loop: query the status,
delay one unit, decrement the `uint32_t` countdown. -/
def pollBody (P : Pdl) (t : Transport) (s : LoopState) : LoopState :=
  { masterStatus := t.status s.polls
    timeout := (s.timeout + 2 ^ 32 - 1) % 2 ^ 32
    polls := s.polls + 1
    trace := s.trace ++ [Event.Cy_SCB_I2C_MasterGetStatus,
                         Event.Cy_SysLib_DelayUs P.CY_SCB_WAIT_1_UNIT] }

/-- The loop
`do { ... } while ((0UL != (masterStatus & CY_SCB_I2C_MASTER_BUSY)) && (timeout > 0));`
of both master operations. -/
def pollLoop (P : Pdl) (t : Transport) (s : LoopState) : LoopState :=
  if 0 ≠ (pollBody P t s).masterStatus &&& P.CY_SCB_I2C_MASTER_BUSY ∧
      (pollBody P t s).timeout > 0 then
    pollLoop P t (pollBody P t s)
  else
    pollBody P t s
termination_by (s.timeout + 2 ^ 32 - 1) % 2 ^ 32
decreasing_by
  simp only [pollBody] at *
  omega

/-- `WritePacketToEzI2C`: the returned status and the effects, in order. -/
def WritePacketToEzI2C (P : Pdl) (t : Transport) (writebuffer : List Nat)
    (bufferSize : Nat) : Nat × List Event :=
  let status := TRANSFER_ERROR
  let timeout := TIMEOUT_INIT
  let tr := [Event.Cy_SCB_I2C_MasterWrite writebuffer bufferSize]
  let errorStatus := t.submit
  if errorStatus = P.CY_SCB_I2C_SUCCESS then
    let s := pollLoop P t { masterStatus := 0, timeout := timeout, polls := 0, trace := tr }
    if s.timeout ≤ 0 then
      (status, s.trace ++ [Event.Cy_SCB_I2C_Disable, Event.Cy_SCB_I2C_Enable])
    else if 0 = MASTER_ERROR_MASK P &&& s.masterStatus then
      if WRITE_PACKET_SIZE = t.count then
        (TRANSFER_CMPLT, s.trace ++ [Event.Cy_SCB_I2C_MasterGetTransferCount])
      else
        (status, s.trace ++ [Event.Cy_SCB_I2C_MasterGetTransferCount])
    else
      (status, s.trace)
  else
    (status, tr)

/-- `ReadStatusPacketFromEzI2C`: the returned status and the effects, in
order.  The local receive buffer is filled by the driver; its content when
inspected is `t.rx`. -/
def ReadStatusPacketFromEzI2C (P : Pdl) (t : Transport) : Nat × List Event :=
  let status := TRANSFER_ERROR
  let timeout := TIMEOUT_INIT
  let buffer := t.rx
  let tr := [Event.Cy_SCB_I2C_MasterRead READ_PACKET_SIZE]
  let errorStatus := t.submit
  if errorStatus = P.CY_SCB_I2C_SUCCESS then
    let s := pollLoop P t { masterStatus := 0, timeout := timeout, polls := 0, trace := tr }
    if s.timeout ≤ 0 then
      (status, s.trace ++ [Event.Cy_SCB_I2C_Disable, Event.Cy_SCB_I2C_Enable])
    else if 0 = MASTER_ERROR_MASK P &&& s.masterStatus then
      if PACKET_SOP = buffer.getD EZI2C_RPLY_SOP_POS 0 ∧
          PACKET_EOP = buffer.getD EZI2C_RPLY_EOP_POS 0 ∧
          STS_CMD_DONE = buffer.getD EZI2C_RPLY_STS_POS 0 then
        (TRANSFER_CMPLT, s.trace)
      else
        (status, s.trace)
    else
      (status, s.trace)
  else
    (status, tr)

/-! ## I2CSlave.c -/

/-- The two `else` assignments of `CheckEzI2Cbuffer` after an invalid frame
(`PACKET_SOP`, `STS_CMD_FAIL`, `PACKET_EOP` at the reply positions). -/
def replyFail (buffer : List Nat) (tr : List Event) : List Nat × List Event :=
  let buffer := buffer.set PACKET_RPLY_SOP_POS PACKET_SOP
  let buffer := buffer.set PACKET_RPLY_STS_POS STS_CMD_FAIL
  let buffer := buffer.set PACKET_RPLY_EOP_POS PACKET_EOP
  (buffer, tr ++ [Event.BufferWrite PACKET_RPLY_SOP_POS PACKET_SOP,
                  Event.BufferWrite PACKET_RPLY_STS_POS STS_CMD_FAIL,
                  Event.BufferWrite PACKET_RPLY_EOP_POS PACKET_EOP])

/-- `CheckEzI2Cbuffer`: `activity` is the value returned by
`Cy_SCB_EZI2C_GetActivity`, `buffer` the content of the global EZI2C buffer
on entry.  The result is the buffer on return and the effects, in order.
The `&&` of the frame test reads `buffer[EzPACKET_EOP_POS]` only when the
first comparison holds. -/
def CheckEzI2Cbuffer (P : Pdl) (activity : Nat) (buffer : List Nat) :
    List Nat × List Event :=
  let tr := [Event.NVIC_DisableIRQ P.CYBSP_EZI2C_IRQ, Event.Cy_SCB_EZI2C_GetActivity]
  let ezi2cState := activity
  let (buffer, tr) :=
    if 0 ≠ ezi2cState &&& P.CY_SCB_EZI2C_STATUS_WRITE1 ∧
        0 = ezi2cState &&& P.CY_SCB_EZI2C_STATUS_ERR then
      let tr := tr ++ [Event.BufferRead EzPACKET_SOP_POS]
      if buffer.getD EzPACKET_SOP_POS 0 = PACKET_SOP then
        let tr := tr ++ [Event.BufferRead EzPACKET_EOP_POS]
        if buffer.getD EzPACKET_EOP_POS 0 = PACKET_EOP then
          let tr := tr ++ [Event.BufferRead EzPACKET_CMD_POS,
                           Event.Cy_GPIO_Write (buffer.getD EzPACKET_CMD_POS 0)]
          let buffer := buffer.set EzPACKET_SOP_POS ZERO
          let buffer := buffer.set EzPACKET_EOP_POS ZERO
          let buffer := buffer.set PACKET_RPLY_SOP_POS PACKET_SOP
          let buffer := buffer.set PACKET_RPLY_STS_POS STS_CMD_DONE
          let buffer := buffer.set PACKET_RPLY_EOP_POS PACKET_EOP
          (buffer, tr ++ [Event.BufferWrite EzPACKET_SOP_POS ZERO,
                          Event.BufferWrite EzPACKET_EOP_POS ZERO,
                          Event.BufferWrite PACKET_RPLY_SOP_POS PACKET_SOP,
                          Event.BufferWrite PACKET_RPLY_STS_POS STS_CMD_DONE,
                          Event.BufferWrite PACKET_RPLY_EOP_POS PACKET_EOP])
        else
          replyFail buffer tr
      else
        replyFail buffer tr
    else
      (buffer, tr)
  (buffer, tr ++ [Event.NVIC_EnableIRQ P.CYBSP_EZI2C_IRQ])

/-! ## Vocabulary of the properties -/

/-- The k-th status query reports the master busy. -/
def Busy (P : Pdl) (t : Transport) (k : Nat) : Prop :=
  0 ≠ t.status k &&& P.CY_SCB_I2C_MASTER_BUSY

instance (P : Pdl) (t : Transport) (k : Nat) : Decidable (Busy P t k) := by
  unfold Busy; infer_instance

/-- Query number j (counted from 0) is the first one that reports the busy
bit clear. -/
def FirstIdle (P : Pdl) (t : Transport) (j : Nat) : Prop :=
  (∀ i, i < j → Busy P t i) ∧ ¬ Busy P t j

/-- None of the five master error flags is set in the status word w. -/
def NoErrorFlag (P : Pdl) (w : Nat) : Prop :=
  P.CY_SCB_I2C_MASTER_DATA_NAK &&& w = 0 ∧ P.CY_SCB_I2C_MASTER_ADDR_NAK &&& w = 0 ∧
  P.CY_SCB_I2C_MASTER_ARB_LOST &&& w = 0 ∧ P.CY_SCB_I2C_MASTER_ABORT_START &&& w = 0 ∧
  P.CY_SCB_I2C_MASTER_BUS_ERR &&& w = 0

instance (P : Pdl) (w : Nat) : Decidable (NoErrorFlag P w) := by
  unfold NoErrorFlag; infer_instance

/-- The status queries and delays of n passes through the polling loop. -/
def pollEvents (P : Pdl) (n : Nat) : List Event :=
  (List.replicate n [Event.Cy_SCB_I2C_MasterGetStatus,
                     Event.Cy_SysLib_DelayUs P.CY_SCB_WAIT_1_UNIT]).flatten

/-- The gate of `CheckEzI2Cbuffer`: write completed and no error. -/
def GatePasses (P : Pdl) (activity : Nat) : Prop :=
  0 ≠ activity &&& P.CY_SCB_EZI2C_STATUS_WRITE1 ∧ 0 = activity &&& P.CY_SCB_EZI2C_STATUS_ERR

instance (P : Pdl) (a : Nat) : Decidable (GatePasses P a) := by
  unfold GatePasses; infer_instance

/-- The actuator calls among the effects, in order. -/
def actuatorCalls (tr : List Event) : List Nat :=
  tr.filterMap fun e => match e with
    | Event.Cy_GPIO_Write v => some v
    | _ => none

/-- The received bytes carry the start marker at offset 5, the end marker at
offset 7 and the status Done at offset 6. -/
def ReplyDone (rx : List Nat) : Prop :=
  rx.getD 5 0 = 0x01 ∧ rx.getD 7 0 = 0x17 ∧ rx.getD 6 0 = 0x00

instance (rx : List Nat) : Decidable (ReplyDone rx) := by
  unfold ReplyDone; infer_instance

/-- The inbound frame of the shared buffer is well-formed: start marker at
offset 0 and end marker at offset 2. -/
def WellFormed (b : List Nat) : Prop :=
  b.getD 0 0 = 0x01 ∧ b.getD 2 0 = 0x17

instance (b : List Nat) : Decidable (WellFormed b) := by
  unfold WellFormed; infer_instance

/-- A reset event (`Cy_SCB_I2C_Disable` or `Cy_SCB_I2C_Enable`) occurs
among the effects. -/
def ResetIssued (tr : List Event) : Prop :=
  Event.Cy_SCB_I2C_Disable ∈ tr ∨ Event.Cy_SCB_I2C_Enable ∈ tr

instance (tr : List Event) : Decidable (ResetIssued tr) := by
  unfold ResetIssued; infer_instance

/-- The spec's Transfer Outcome: one of Complete, Failed, TimedOut. -/
inductive Outcome where
  | Complete
  | Failed
  | TimedOut
  deriving DecidableEq, Repr

/-- The flag values of the PSoC 4 peripheral driver library (cy_scb_i2c.h,
cy_scb_ezi2c.h), used for concrete instances. -/
def psoc4 : Pdl :=
  { CY_SCB_I2C_SUCCESS := 0
    CY_SCB_I2C_MASTER_BUSY := 0x00010000
    CY_SCB_I2C_MASTER_DATA_NAK := 0x00100000
    CY_SCB_I2C_MASTER_ADDR_NAK := 0x00200000
    CY_SCB_I2C_MASTER_ARB_LOST := 0x00400000
    CY_SCB_I2C_MASTER_ABORT_START := 0x00800000
    CY_SCB_I2C_MASTER_BUS_ERR := 0x01000000
    CY_SCB_WAIT_1_UNIT := 1
    CY_SCB_EZI2C_STATUS_WRITE1 := 0x02
    CY_SCB_EZI2C_STATUS_ERR := 0x20
    CYBSP_EZI2C_IRQ := 0 }

/-- A transport that accepts the submission and completes at once, without
error, reporting three bytes transferred. -/
def shortTransport : Transport :=
  { submit := 0, status := fun _ => 0, count := 3, rx := [] }

/-- A transport that accepts the submission and completes at once, without
error, delivering a reply frame with status Done. -/
def doneTransport : Transport :=
  { submit := 0, status := fun _ => 0, count := 8, rx := [0, 0xFF, 0, 0, 0, 0x01, 0x00, 0x17] }

/-- A transport that accepts the submission and reports busy at every
status query. -/
def stuckTransport : Transport :=
  { submit := 0, status := fun _ => 0x00010000, count := 0, rx := [] }

/-- A transport that rejects the submission (a non-zero driver status). -/
def rejectingTransport : Transport :=
  { submit := 1, status := fun _ => 0, count := 0, rx := [] }

/-- A transport that accepts the submission, reports busy at the first
999,999 status queries and reports completion without error, all four bytes
transferred and a Done reply received, at query number 1,000,000. -/
def lastPollTransport : Transport :=
  { submit := 0
    status := fun k => if k + 1 < 1000000 then 0x00010000 else 0
    count := 4
    rx := [0, 0xFF, 0, 0, 0, 0x01, 0x00, 0x17] }

/-! ## main.c -/

/-- Modelled from the spec: the macro `PACKET_ADDR_POS` is declared in
I2CMaster.h, which is not among the sources.  The spec lays the outbound
command frame out as `[dest_address, start_marker, payload, end_marker]`. -/
def PACKET_ADDR_POS : Nat := 0
/-- Modelled from the spec: the macro `PACKET_SOP_POS` of the absent
I2CMaster.h, the second position of the outbound command frame. -/
def PACKET_SOP_POS : Nat := 1
/-- Modelled from the spec: the macro `PACKET_CMD_POS` of the absent
I2CMaster.h, the third position of the outbound command frame. -/
def PACKET_CMD_POS : Nat := 2
/-- Modelled from the spec: the macro `PACKET_EOP_POS` of the absent
I2CMaster.h, the fourth position of the outbound command frame. -/
def PACKET_EOP_POS : Nat := 3
/-- `CMD_TO_CMD_DELAY` of main.c. -/
def CMD_TO_CMD_DELAY : Nat := 1000

/-- The values main.c takes from the board support package and from
I2CMaster.h and that the sources do not define: the two LED states and the
EZI2C buffer address.  They are parameters of the embedding. -/
structure Board where
  CYBSP_LED_STATE_ON : Nat
  CYBSP_LED_STATE_OFF : Nat
  EZI2C_BUFFER_ADDRESS : Nat
  deriving Repr

/-- `OFF` of main.c. -/
def OFF (B : Board) : Nat := B.CYBSP_LED_STATE_OFF
/-- `ON` of main.c. -/
def ON (B : Board) : Nat := B.CYBSP_LED_STATE_ON

/-- The effects of one iteration of the main loop: the effects of the three
operations it calls, and the inter-command delay `Cy_SysLib_Delay`. -/
inductive MainEvent where
  | op (e : Event)
  | Cy_SysLib_Delay (ms : Nat)
  deriving DecidableEq, Repr

/-- What the environment answers during one iteration of the main loop: the
transport's answers to the write and to the read, and the activity value
returned to `CheckEzI2Cbuffer`. -/
structure Cycle where
  write : Transport
  read : Transport
  activity : Nat

/-- The variables after one iteration of the main loop, the EZI2C buffer
after it, and the effects of the iteration in order. -/
structure MainStep where
  cmd : Nat
  buffer : List Nat
  shared : List Nat
  trace : List MainEvent
  deriving DecidableEq, Repr

/-- The four assignments at the head of the loop body of `main` that create
the packet to be sent to the slave in the local `buffer`. -/
def commandPacket (B : Board) (cmd : Nat) (buffer : List Nat) : List Nat :=
  let buffer := buffer.set PACKET_ADDR_POS (B.EZI2C_BUFFER_ADDRESS % 256)
  let buffer := buffer.set PACKET_SOP_POS PACKET_SOP
  let buffer := buffer.set PACKET_EOP_POS PACKET_EOP
  let buffer := buffer.set PACKET_CMD_POS cmd
  buffer

/-- The body of the `for(;;)` loop of `main`.  `cmd` and `buffer` are the
locals of `main` on entry to the iteration, `shared` is the content of the
EZI2C buffer of I2CSlave.c when `CheckEzI2Cbuffer` is entered. -/
def mainIteration (P : Pdl) (B : Board) (env : Cycle) (cmd : Nat) (buffer shared : List Nat) :
    MainStep :=
  let buffer := commandPacket B cmd buffer
  let w := WritePacketToEzI2C P env.write buffer WRITE_PACKET_SIZE
  if TRANSFER_CMPLT = w.1 then
    let r := ReadStatusPacketFromEzI2C P env.read
    let cmd := if TRANSFER_CMPLT = r.1 then (if cmd = ON B then OFF B else ON B) % 256 else cmd
    let c := CheckEzI2Cbuffer P env.activity shared
    { cmd := cmd
      buffer := buffer
      shared := c.1
      trace := w.2.map MainEvent.op ++ r.2.map MainEvent.op ++ c.2.map MainEvent.op ++
        [MainEvent.Cy_SysLib_Delay CMD_TO_CMD_DELAY] }
  else
    { cmd := cmd, buffer := buffer, shared := shared, trace := w.2.map MainEvent.op }

/-! ## Vocabulary of the properties, continued -/

/-- Whether the interrupt source `src` is masked after the effects `tr`,
when `masked` tells whether it was masked before them. -/
def irqMasked (src : Nat) (masked : Bool) (tr : List Event) : Bool :=
  tr.foldl (fun m e => match e with
    | Event.NVIC_DisableIRQ s => if s = src then true else m
    | Event.NVIC_EnableIRQ s => if s = src then false else m
    | _ => m) masked

/-- An effect that belongs between the masking and the unmasking of the
interrupt: the activity query, a read or write of the shared buffer, or the
actuator call. -/
def Guarded (e : Event) : Prop :=
  e = Event.Cy_SCB_EZI2C_GetActivity ∨ (∃ i, e = Event.BufferRead i) ∨
    (∃ i v, e = Event.BufferWrite i v) ∨ (∃ v, e = Event.Cy_GPIO_Write v)

/-- The actuator calls among the effects of a main loop iteration, in order. -/
def mainActuatorCalls (tr : List MainEvent) : List Nat :=
  tr.filterMap fun e => match e with
    | MainEvent.op (Event.Cy_GPIO_Write v) => some v
    | _ => none

/-- The inter-command delays among the effects of a main loop iteration. -/
def mainDelays (tr : List MainEvent) : List Nat :=
  tr.filterMap fun e => match e with
    | MainEvent.Cy_SysLib_Delay ms => some ms
    | _ => none

/-- The LED states of the board support package, used for concrete
instances. -/
def kit : Board :=
  { CYBSP_LED_STATE_ON := 0, CYBSP_LED_STATE_OFF := 1, EZI2C_BUFFER_ADDRESS := 0 }

/-- A transport that accepts the submission and completes at once, without
error, reporting four bytes transferred. -/
def fullTransport : Transport :=
  { submit := 0, status := fun _ => 0, count := 4, rx := [] }

/-- A transport that accepts the submission and reports, at the first status
query, the busy bit clear with the address-NAK error flag set. -/
def nakTransport : Transport :=
  { submit := 0, status := fun _ => 0x00200000, count := 0, rx := [] }

/-- An iteration whose write ends with an address NAK. -/
def writeFails : Cycle :=
  { write := nakTransport, read := doneTransport, activity := 0x02 }

/-- An iteration whose write completes and whose read ends with an address
NAK, while the slave has seen a completed write. -/
def readFails : Cycle :=
  { write := fullTransport, read := nakTransport, activity := 0x02 }

/-! ## The polling loop -/

theorem or_eq_zero_iff (a b : Nat) : a ||| b = 0 ↔ a = 0 ∧ b = 0 := by
  constructor
  · intro h
    have hb : ∀ i, (a ||| b).testBit i = false := by intro i; rw [h]; simp
    constructor <;> apply Nat.eq_of_testBit_eq <;> intro i <;>
      have := hb i <;> simp [Nat.testBit_or] at this <;> simp [this]
  · rintro ⟨rfl, rfl⟩; simp

theorem mask_clear_iff (P : Pdl) (w : Nat) :
    0 = MASTER_ERROR_MASK P &&& w ↔ NoErrorFlag P w := by
  unfold MASTER_ERROR_MASK NoErrorFlag
  rw [eq_comm, Nat.and_comm, Nat.and_or_distrib_left, Nat.and_or_distrib_left,
    Nat.and_or_distrib_left, Nat.and_or_distrib_left]
  simp only [or_eq_zero_iff, Nat.and_comm w, and_assoc]

theorem pollEvents_succ (P : Pdl) (n : Nat) :
    pollEvents P (n + 1) =
      [Event.Cy_SCB_I2C_MasterGetStatus, Event.Cy_SysLib_DelayUs P.CY_SCB_WAIT_1_UNIT] ++
        pollEvents P n := by
  simp [pollEvents, List.replicate_succ]

/-- The loop started with a countdown `0 < T < 2^32` makes `m + 1` queries
when the first `m` of them report busy and either query `m` reports the
busy bit clear or the countdown is exhausted by it. -/
theorem pollLoop_exit (P : Pdl) (t : Transport) (m : Nat) :
    ∀ s : LoopState, s.timeout < 2 ^ 32 → m < s.timeout →
      (∀ i, i < m → Busy P t (s.polls + i)) →
      (m + 1 < s.timeout → ¬ Busy P t (s.polls + m)) →
      pollLoop P t s =
        { masterStatus := t.status (s.polls + m)
          timeout := s.timeout - (m + 1)
          polls := s.polls + (m + 1)
          trace := s.trace ++ pollEvents P (m + 1) } := by
  induction m with
  | zero =>
    intro s hT hm _ hidle
    rw [pollLoop]
    have hdec : (s.timeout + 2 ^ 32 - 1) % 2 ^ 32 = s.timeout - 1 := by omega
    have hcond : ¬ (0 ≠ (pollBody P t s).masterStatus &&& P.CY_SCB_I2C_MASTER_BUSY ∧
        (pollBody P t s).timeout > 0) := by
      rintro ⟨hb, hpos⟩
      simp only [pollBody, hdec] at hb hpos
      exact hidle (by omega) hb
    rw [if_neg hcond]
    simp only [pollBody, hdec, pollEvents, LoopState.mk.injEq]
    simp
  | succ m ih =>
    intro s hT hm hbusy hidle
    rw [pollLoop]
    have hdec : (s.timeout + 2 ^ 32 - 1) % 2 ^ 32 = s.timeout - 1 := by omega
    have hcond : 0 ≠ (pollBody P t s).masterStatus &&& P.CY_SCB_I2C_MASTER_BUSY ∧
        (pollBody P t s).timeout > 0 := by
      refine ⟨?_, ?_⟩
      · have := hbusy 0 (by omega)
        simpa [pollBody, Busy] using this
      · simp only [pollBody, hdec]; omega
    rw [if_pos hcond]
    have hs : (pollBody P t s).timeout = s.timeout - 1 := by simp only [pollBody, hdec]
    have hp : (pollBody P t s).polls = s.polls + 1 := rfl
    rw [ih (pollBody P t s) (by rw [hs]; omega) (by rw [hs]; omega)
      (by intro i hi; rw [hp]; have := hbusy (i + 1) (by omega); rwa [show s.polls + 1 + i = s.polls + (i + 1) by omega])
      (by intro h; rw [hp, show s.polls + 1 + m = s.polls + (m + 1) by omega]; exact hidle (by rw [hs] at h; omega))]
    rw [hs, hp, pollEvents_succ P (m + 1)]
    simp only [pollBody, List.append_assoc, LoopState.mk.injEq]
    refine ⟨by rw [show s.polls + 1 + m = s.polls + (m + 1) by omega], by omega, by omega,
      trivial⟩

/-- When query j is the first to report the busy bit clear and is not the
last permitted one, the loop stops after it with a positive countdown. -/
theorem pollLoop_idle (P : Pdl) (t : Transport) (tr : List Event) (j : Nat)
    (hj : j + 1 < TIMEOUT_INIT) (hf : FirstIdle P t j) :
    pollLoop P t { masterStatus := 0, timeout := TIMEOUT_INIT, polls := 0, trace := tr } =
      { masterStatus := t.status j
        timeout := TIMEOUT_INIT - (j + 1)
        polls := j + 1
        trace := tr ++ pollEvents P (j + 1) } := by
  have h := pollLoop_exit P t j
    { masterStatus := 0, timeout := TIMEOUT_INIT, polls := 0, trace := tr }
    (by simp [TIMEOUT_INIT]) (by simp only; omega)
    (by intro i hi; simpa using hf.1 i hi) (by intro _; simpa using hf.2)
  simpa using h

/-- When the first 999,999 queries all report busy, the loop makes
1,000,000 queries and leaves the countdown at zero. -/
theorem pollLoop_expire (P : Pdl) (t : Transport) (tr : List Event)
    (hb : ∀ i, i + 1 < TIMEOUT_INIT → Busy P t i) :
    pollLoop P t { masterStatus := 0, timeout := TIMEOUT_INIT, polls := 0, trace := tr } =
      { masterStatus := t.status (TIMEOUT_INIT - 1)
        timeout := 0
        polls := TIMEOUT_INIT
        trace := tr ++ pollEvents P TIMEOUT_INIT } := by
  have h := pollLoop_exit P t (TIMEOUT_INIT - 1)
    { masterStatus := 0, timeout := TIMEOUT_INIT, polls := 0, trace := tr }
    (by simp [TIMEOUT_INIT]) (by simp [TIMEOUT_INIT])
    (by intro i hi; simp only [Nat.zero_add]; exact hb i (by simp only [TIMEOUT_INIT] at *; omega))
    (by intro h; simp [TIMEOUT_INIT] at h)
  simpa [TIMEOUT_INIT] using h

/-- Either some query among the first 999,999 is the first to report the
busy bit clear, or all of them report busy. -/
theorem idle_or_expire (P : Pdl) (t : Transport) :
    (∃ j, j + 1 < TIMEOUT_INIT ∧ FirstIdle P t j) ∨
      (∀ i, i + 1 < TIMEOUT_INIT → Busy P t i) := by
  by_cases h : ∃ j, j + 1 < TIMEOUT_INIT ∧ ¬ Busy P t j
  · left
    have hspec := Nat.find_spec h
    refine ⟨Nat.find h, hspec.1, ?_, hspec.2⟩
    intro i hi
    by_contra hnb
    exact Nat.find_min h hi ⟨by omega, hnb⟩
  · right
    intro i hi
    by_contra hnb
    exact h ⟨i, hi, hnb⟩

/-- The two cases of `idle_or_expire` exclude each other. -/
theorem not_idle_of_expire (P : Pdl) (t : Transport)
    (hb : ∀ i, i + 1 < TIMEOUT_INIT → Busy P t i) :
    ¬ ∃ j, j + 1 < TIMEOUT_INIT ∧ FirstIdle P t j ∧ NoErrorFlag P (t.status j) := by
  rintro ⟨j, hj, hf, _⟩
  exact hf.2 (hb j hj)

/-- The first idle query is unique. -/
theorem firstIdle_unique (P : Pdl) (t : Transport) (j k : Nat)
    (hj : FirstIdle P t j) (hk : FirstIdle P t k) : j = k := by
  rcases Nat.lt_trichotomy j k with h | h | h
  · exact absurd (hk.1 j h) hj.2
  · exact h
  · exact absurd (hj.1 k h) hk.2

/-- The write operation on a transport that accepts the submission and
whose query j < 999,999 is the first idle one. -/
theorem write_idle (P : Pdl) (t : Transport) (wb : List Nat) (sz j : Nat)
    (hs : t.submit = P.CY_SCB_I2C_SUCCESS) (hj : j + 1 < TIMEOUT_INIT)
    (hf : FirstIdle P t j) :
    WritePacketToEzI2C P t wb sz =
      if NoErrorFlag P (t.status j) then
        (if WRITE_PACKET_SIZE = t.count then TRANSFER_CMPLT else TRANSFER_ERROR,
          Event.Cy_SCB_I2C_MasterWrite wb sz :: pollEvents P (j + 1) ++
            [Event.Cy_SCB_I2C_MasterGetTransferCount])
      else
        (TRANSFER_ERROR, Event.Cy_SCB_I2C_MasterWrite wb sz :: pollEvents P (j + 1)) := by
  have hpos : ¬ (TIMEOUT_INIT - (j + 1) ≤ 0) := by omega
  simp only [WritePacketToEzI2C, hs, if_true, pollLoop_idle P t _ j hj hf, hpos, if_false,
    mask_clear_iff]
  by_cases he : NoErrorFlag P (t.status j)
  · by_cases hc : WRITE_PACKET_SIZE = t.count <;> simp [he, hc]
  · simp [he]

/-- The write operation on a transport that accepts the submission and
reports busy at each of the first 999,999 queries. -/
theorem write_expire (P : Pdl) (t : Transport) (wb : List Nat) (sz : Nat)
    (hs : t.submit = P.CY_SCB_I2C_SUCCESS)
    (hb : ∀ i, i + 1 < TIMEOUT_INIT → Busy P t i) :
    WritePacketToEzI2C P t wb sz =
      (TRANSFER_ERROR, Event.Cy_SCB_I2C_MasterWrite wb sz :: pollEvents P TIMEOUT_INIT ++
        [Event.Cy_SCB_I2C_Disable, Event.Cy_SCB_I2C_Enable]) := by
  simp [WritePacketToEzI2C, hs, pollLoop_expire P t _ hb]

/-- The write operation on a transport that rejects the submission. -/
theorem write_rejected (P : Pdl) (t : Transport) (wb : List Nat) (sz : Nat)
    (hs : t.submit ≠ P.CY_SCB_I2C_SUCCESS) :
    WritePacketToEzI2C P t wb sz =
      (TRANSFER_ERROR, [Event.Cy_SCB_I2C_MasterWrite wb sz]) := by
  simp [WritePacketToEzI2C, hs]

/-- The read operation on a transport that accepts the submission and
whose query j < 999,999 is the first idle one. -/
theorem read_idle (P : Pdl) (t : Transport) (j : Nat)
    (hs : t.submit = P.CY_SCB_I2C_SUCCESS) (hj : j + 1 < TIMEOUT_INIT)
    (hf : FirstIdle P t j) :
    ReadStatusPacketFromEzI2C P t =
      (if NoErrorFlag P (t.status j) ∧ ReplyDone t.rx then TRANSFER_CMPLT else TRANSFER_ERROR,
        Event.Cy_SCB_I2C_MasterRead READ_PACKET_SIZE :: pollEvents P (j + 1)) := by
  have hpos : ¬ (TIMEOUT_INIT - (j + 1) ≤ 0) := by omega
  simp only [ReadStatusPacketFromEzI2C, hs, if_true, pollLoop_idle P t _ j hj hf, hpos,
    if_false, mask_clear_iff]
  have hr : (PACKET_SOP = t.rx.getD EZI2C_RPLY_SOP_POS 0 ∧
      PACKET_EOP = t.rx.getD EZI2C_RPLY_EOP_POS 0 ∧
      STS_CMD_DONE = t.rx.getD EZI2C_RPLY_STS_POS 0) ↔ ReplyDone t.rx := by
    unfold ReplyDone PACKET_SOP PACKET_EOP STS_CMD_DONE EZI2C_RPLY_SOP_POS EZI2C_RPLY_EOP_POS
      EZI2C_RPLY_STS_POS
    constructor <;> rintro ⟨a, b, c⟩ <;> exact ⟨a.symm, b.symm, c.symm⟩
  simp only [hr]
  by_cases he : NoErrorFlag P (t.status j)
  · by_cases hc : ReplyDone t.rx <;> simp [he, hc]
  · simp [he]

/-- The read operation on a transport that accepts the submission and
reports busy at each of the first 999,999 queries. -/
theorem read_expire (P : Pdl) (t : Transport)
    (hs : t.submit = P.CY_SCB_I2C_SUCCESS)
    (hb : ∀ i, i + 1 < TIMEOUT_INIT → Busy P t i) :
    ReadStatusPacketFromEzI2C P t =
      (TRANSFER_ERROR, Event.Cy_SCB_I2C_MasterRead READ_PACKET_SIZE :: pollEvents P TIMEOUT_INIT ++
        [Event.Cy_SCB_I2C_Disable, Event.Cy_SCB_I2C_Enable]) := by
  simp [ReadStatusPacketFromEzI2C, hs, pollLoop_expire P t _ hb]

/-- The read operation on a transport that rejects the submission. -/
theorem read_rejected (P : Pdl) (t : Transport)
    (hs : t.submit ≠ P.CY_SCB_I2C_SUCCESS) :
    ReadStatusPacketFromEzI2C P t =
      (TRANSFER_ERROR, [Event.Cy_SCB_I2C_MasterRead READ_PACKET_SIZE]) := by
  simp [ReadStatusPacketFromEzI2C, hs]

/-- After the loop the countdown is positive and the last polled status is
free of error flags exactly when some query among the first 999,999 is the
first idle one and its status is free of error flags. -/
theorem evaluate_iff (P : Pdl) (t : Transport) (tr : List Event) :
    (0 < (pollLoop P t
          { masterStatus := 0, timeout := TIMEOUT_INIT, polls := 0, trace := tr }).timeout ∧
      NoErrorFlag P (pollLoop P t
          { masterStatus := 0, timeout := TIMEOUT_INIT, polls := 0, trace := tr }).masterStatus) ↔
    ∃ j, j + 1 < TIMEOUT_INIT ∧ FirstIdle P t j ∧ NoErrorFlag P (t.status j) := by
  rcases idle_or_expire P t with ⟨j, hj, hf⟩ | hb
  · rw [pollLoop_idle P t tr j hj hf]
    constructor
    · rintro ⟨_, he⟩; exact ⟨j, hj, hf, he⟩
    · rintro ⟨k, _, hk, he⟩
      rw [firstIdle_unique P t j k hf hk]
      exact ⟨by simp only; omega, he⟩
  · rw [pollLoop_expire P t tr hb]
    constructor
    · rintro ⟨h, _⟩; simp at h
    · intro h; exact absurd h (not_idle_of_expire P t hb)

/-- The loop depends on the transport only through the answers to the
status queries. -/
theorem pollLoop_status (P : Pdl) (t u : Transport) (tr : List Event)
    (h : u.status = t.status) :
    pollLoop P u { masterStatus := 0, timeout := TIMEOUT_INIT, polls := 0, trace := tr } =
      pollLoop P t { masterStatus := 0, timeout := TIMEOUT_INIT, polls := 0, trace := tr } := by
  have hbusy : ∀ k, Busy P u k ↔ Busy P t k := by
    intro k; unfold Busy; rw [h]
  rcases idle_or_expire P t with ⟨j, hj, hf⟩ | hb
  · have hf' : FirstIdle P u j :=
      ⟨fun i hi => (hbusy i).2 (hf.1 i hi), fun hb => hf.2 ((hbusy j).1 hb)⟩
    rw [pollLoop_idle P t tr j hj hf, pollLoop_idle P u tr j hj hf', h]
  · rw [pollLoop_expire P t tr hb,
      pollLoop_expire P u tr (fun i hi => (hbusy i).2 (hb i hi)), h]

/-- The status queries and delays of the loop contain no other event. -/
theorem mem_pollEvents (P : Pdl) (n : Nat) (e : Event) (h : e ∈ pollEvents P n) :
    e = Event.Cy_SCB_I2C_MasterGetStatus ∨ e = Event.Cy_SysLib_DelayUs P.CY_SCB_WAIT_1_UNIT := by
  induction n with
  | zero => simp [pollEvents] at h
  | succ n ih =>
    rw [pollEvents_succ] at h
    simp only [List.cons_append, List.nil_append, List.mem_cons] at h
    rcases h with h | h | h
    · exact Or.inl h
    · exact Or.inr h
    · exact ih h

/-- No reset event occurs among the status queries and delays. -/
theorem not_reset_pollEvents (P : Pdl) (n : Nat) : ¬ ResetIssued (pollEvents P n) := by
  rintro (h | h) <;> rcases mem_pollEvents P n _ h with h | h <;> cases h

/-- The loop makes n status queries in n passes. -/
theorem count_status_pollEvents (P : Pdl) (n : Nat) :
    (pollEvents P n).count Event.Cy_SCB_I2C_MasterGetStatus = n := by
  induction n with
  | zero => simp [pollEvents]
  | succ n ih =>
    rw [pollEvents_succ]
    simp [List.count_cons, ih]

/-- The number of occurrences of an event that is neither a status query
nor a delay is not changed by the events of the loop. -/
theorem count_pollEvents_other (P : Pdl) (n : Nat) (e : Event)
    (h1 : e ≠ Event.Cy_SCB_I2C_MasterGetStatus)
    (h2 : e ≠ Event.Cy_SysLib_DelayUs P.CY_SCB_WAIT_1_UNIT) :
    (pollEvents P n).count e = 0 := by
  rw [List.count_eq_zero]
  intro h
  rcases mem_pollEvents P n e h with h | h
  · exact h1 h
  · exact h2 h

/-- The stuck transport reports busy at every query. -/
theorem stuckTransport_busy (k : Nat) : Busy psoc4 stuckTransport k :=
  (by decide : (0 : Nat) ≠ 0x00010000 &&& 0x00010000)

/-! ## I2CMaster.c: the claims -/

/-- C1: `WritePacketToEzI2C` returns `TRANSFER_CMPLT` exactly when the
submission was accepted, some status query among the first 999,999 is the
first to report the busy bit clear (the countdown did not expire) with none of
the five error flags set in it (it is the last polled status), and the reported
transfer count equals `WRITE_PACKET_SIZE`, which is 4; in every other case it
returns `TRANSFER_ERROR`, a different value.  In particular a write that
reports fewer than 4 bytes returns `TRANSFER_ERROR`.  The last conjunct ties
the condition on the queries to the loop variables: positive countdown and no
error flag in `masterStatus` after the loop. -/
theorem C1_write_complete_iff (P : Pdl) (t : Transport) (wb : List Nat) (sz : Nat) :
    ((WritePacketToEzI2C P t wb sz).1 = TRANSFER_CMPLT ↔
      t.submit = P.CY_SCB_I2C_SUCCESS ∧
      (∃ j, j + 1 < TIMEOUT_INIT ∧ FirstIdle P t j ∧ NoErrorFlag P (t.status j)) ∧
      t.count = WRITE_PACKET_SIZE) ∧
    ((WritePacketToEzI2C P t wb sz).1 ≠ TRANSFER_CMPLT →
      (WritePacketToEzI2C P t wb sz).1 = TRANSFER_ERROR) ∧
    (t.count < WRITE_PACKET_SIZE → (WritePacketToEzI2C P t wb sz).1 = TRANSFER_ERROR) ∧
    WRITE_PACKET_SIZE = 4 ∧ TRANSFER_CMPLT ≠ TRANSFER_ERROR ∧
    ((0 < (pollLoop P t
          { masterStatus := 0, timeout := TIMEOUT_INIT, polls := 0,
            trace := [Event.Cy_SCB_I2C_MasterWrite wb sz] }).timeout ∧
        NoErrorFlag P (pollLoop P t
          { masterStatus := 0, timeout := TIMEOUT_INIT, polls := 0,
            trace := [Event.Cy_SCB_I2C_MasterWrite wb sz] }).masterStatus) ↔
      ∃ j, j + 1 < TIMEOUT_INIT ∧ FirstIdle P t j ∧ NoErrorFlag P (t.status j)) := by
  have hne : TRANSFER_CMPLT ≠ TRANSFER_ERROR := by decide
  have hiff : (WritePacketToEzI2C P t wb sz).1 = TRANSFER_CMPLT ↔
      t.submit = P.CY_SCB_I2C_SUCCESS ∧
      (∃ j, j + 1 < TIMEOUT_INIT ∧ FirstIdle P t j ∧ NoErrorFlag P (t.status j)) ∧
      t.count = WRITE_PACKET_SIZE := by
    by_cases hs : t.submit = P.CY_SCB_I2C_SUCCESS
    · rcases idle_or_expire P t with ⟨j, hj, hf⟩ | hb
      · rw [write_idle P t wb sz j hs hj hf]
        by_cases he : NoErrorFlag P (t.status j)
        · by_cases hc : WRITE_PACKET_SIZE = t.count
          · simp only [he, hc, if_true, hs, true_and, and_true]
            exact ⟨fun _ => ⟨j, hj, hf, he⟩, fun _ => trivial⟩
          · simp only [he, hc, if_true, if_false, hs, true_and]
            constructor
            · intro h; exact absurd h.symm hne
            · rintro ⟨_, h⟩; exact absurd h.symm hc
        · simp only [he, if_false, hs, true_and]
          constructor
          · intro h; exact absurd h.symm hne
          · rintro ⟨⟨k, _, hk, hek⟩, _⟩
            rw [← firstIdle_unique P t j k hf hk] at hek
            exact absurd hek he
      · rw [write_expire P t wb sz hs hb]
        constructor
        · intro h; exact absurd h.symm hne
        · rintro ⟨_, h, _⟩; exact absurd h (not_idle_of_expire P t hb)
    · rw [write_rejected P t wb sz hs]
      constructor
      · intro h; exact absurd h.symm hne
      · rintro ⟨h, _⟩; exact absurd h hs
  have hdich : (WritePacketToEzI2C P t wb sz).1 ≠ TRANSFER_CMPLT →
      (WritePacketToEzI2C P t wb sz).1 = TRANSFER_ERROR := by
    by_cases hs : t.submit = P.CY_SCB_I2C_SUCCESS
    · rcases idle_or_expire P t with ⟨j, hj, hf⟩ | hb
      · rw [write_idle P t wb sz j hs hj hf]
        by_cases he : NoErrorFlag P (t.status j)
        · by_cases hc : WRITE_PACKET_SIZE = t.count <;> simp [he, hc]
        · simp [he]
      · rw [write_expire P t wb sz hs hb]; simp
    · rw [write_rejected P t wb sz hs]; simp
  refine ⟨hiff, hdich, ?_, rfl, hne, evaluate_iff P t _⟩
  intro hlt
  apply hdich
  intro h
  have := (hiff.1 h).2.2
  omega

/-- Witness of C1: a write accepted, completed at the first query without
error, that reports 3 of the 4 bytes returns `TRANSFER_ERROR`. -/
theorem C1_write_complete_iff_witness :
    shortTransport.count < WRITE_PACKET_SIZE ∧
    (WritePacketToEzI2C psoc4 shortTransport [0x00, 0x01, 0xFF, 0x17] 4).1 = TRANSFER_ERROR :=
  ⟨by decide,
    (C1_write_complete_iff psoc4 shortTransport [0x00, 0x01, 0xFF, 0x17] 4).2.2.1 (by decide)⟩

/-- C2: `ReadStatusPacketFromEzI2C` returns `TRANSFER_CMPLT` if and only if
the submission was accepted, some status query among the first 999,999 is the
first to report the busy bit clear (the countdown did not expire) with none of
the five error flags set in it, and the received bytes have 0x01 at offset 5,
0x17 at offset 7 and 0x00 at offset 6; otherwise it returns `TRANSFER_ERROR`.
The reported transfer count has no influence, the received bytes other than
those at offsets 5, 6 and 7 have no influence, and a reply with either marker
altered is rejected. -/
theorem C2_read_complete_iff (P : Pdl) (t : Transport) :
    ((ReadStatusPacketFromEzI2C P t).1 = TRANSFER_CMPLT ↔
      t.submit = P.CY_SCB_I2C_SUCCESS ∧
      (∃ j, j + 1 < TIMEOUT_INIT ∧ FirstIdle P t j ∧ NoErrorFlag P (t.status j)) ∧
      t.rx.getD 5 0 = 0x01 ∧ t.rx.getD 7 0 = 0x17 ∧ t.rx.getD 6 0 = 0x00) ∧
    ((ReadStatusPacketFromEzI2C P t).1 ≠ TRANSFER_CMPLT →
      (ReadStatusPacketFromEzI2C P t).1 = TRANSFER_ERROR) ∧
    (∀ c, ReadStatusPacketFromEzI2C P { t with count := c } = ReadStatusPacketFromEzI2C P t) ∧
    (∀ rx, rx.getD 5 0 = t.rx.getD 5 0 → rx.getD 6 0 = t.rx.getD 6 0 →
      rx.getD 7 0 = t.rx.getD 7 0 →
      ReadStatusPacketFromEzI2C P { t with rx := rx } = ReadStatusPacketFromEzI2C P t) ∧
    (t.rx.getD 5 0 ≠ 0x01 ∨ t.rx.getD 7 0 ≠ 0x17 →
      (ReadStatusPacketFromEzI2C P t).1 = TRANSFER_ERROR) ∧
    ((0 < (pollLoop P t
          { masterStatus := 0, timeout := TIMEOUT_INIT, polls := 0,
            trace := [Event.Cy_SCB_I2C_MasterRead READ_PACKET_SIZE] }).timeout ∧
        NoErrorFlag P (pollLoop P t
          { masterStatus := 0, timeout := TIMEOUT_INIT, polls := 0,
            trace := [Event.Cy_SCB_I2C_MasterRead READ_PACKET_SIZE] }).masterStatus) ↔
      ∃ j, j + 1 < TIMEOUT_INIT ∧ FirstIdle P t j ∧ NoErrorFlag P (t.status j)) := by
  have hne : TRANSFER_CMPLT ≠ TRANSFER_ERROR := by decide
  have hiff : (ReadStatusPacketFromEzI2C P t).1 = TRANSFER_CMPLT ↔
      t.submit = P.CY_SCB_I2C_SUCCESS ∧
      (∃ j, j + 1 < TIMEOUT_INIT ∧ FirstIdle P t j ∧ NoErrorFlag P (t.status j)) ∧
      t.rx.getD 5 0 = 0x01 ∧ t.rx.getD 7 0 = 0x17 ∧ t.rx.getD 6 0 = 0x00 := by
    by_cases hs : t.submit = P.CY_SCB_I2C_SUCCESS
    · rcases idle_or_expire P t with ⟨j, hj, hf⟩ | hb
      · rw [read_idle P t j hs hj hf]
        by_cases hc : NoErrorFlag P (t.status j) ∧ ReplyDone t.rx
        · simp only [hc, and_self, if_true, hs, true_and]
          exact ⟨fun _ => ⟨⟨j, hj, hf, hc.1⟩, hc.2⟩, fun _ => trivial⟩
        · simp only [hc, if_false, hs, true_and]
          constructor
          · intro h; exact absurd h.symm hne
          · rintro ⟨⟨k, _, hk, hek⟩, hr⟩
            rw [← firstIdle_unique P t j k hf hk] at hek
            exact absurd ⟨hek, hr⟩ hc
      · rw [read_expire P t hs hb]
        constructor
        · intro h; exact absurd h.symm hne
        · rintro ⟨_, h, _⟩; exact absurd h (not_idle_of_expire P t hb)
    · rw [read_rejected P t hs]
      constructor
      · intro h; exact absurd h.symm hne
      · rintro ⟨h, _⟩; exact absurd h hs
  have hdich : (ReadStatusPacketFromEzI2C P t).1 ≠ TRANSFER_CMPLT →
      (ReadStatusPacketFromEzI2C P t).1 = TRANSFER_ERROR := by
    by_cases hs : t.submit = P.CY_SCB_I2C_SUCCESS
    · rcases idle_or_expire P t with ⟨j, hj, hf⟩ | hb
      · rw [read_idle P t j hs hj hf]
        by_cases hc : NoErrorFlag P (t.status j) ∧ ReplyDone t.rx <;> simp [hc]
      · rw [read_expire P t hs hb]; simp
    · rw [read_rejected P t hs]; simp
  refine ⟨hiff, hdich, ?_, ?_, ?_, evaluate_iff P t _⟩
  · intro c
    simp only [ReadStatusPacketFromEzI2C]
    rw [pollLoop_status P t { t with count := c } _ rfl]
  · intro rx h5 h6 h7
    simp only [ReadStatusPacketFromEzI2C, EZI2C_RPLY_SOP_POS, EZI2C_RPLY_EOP_POS,
      EZI2C_RPLY_STS_POS, h5, h6, h7]
    rw [pollLoop_status P t { t with rx := rx } _ rfl]
  · intro h
    apply hdich
    intro hc
    have h5 := (hiff.1 hc).2.2.1
    have h7 := (hiff.1 hc).2.2.2.1
    rcases h with h | h
    · exact h h5
    · exact h h7

/-- Witness of C2: a reply frame with the end marker altered is rejected,
and the frame with status Done is accepted. -/
theorem C2_read_complete_iff_witness :
    (ReadStatusPacketFromEzI2C psoc4
        { doneTransport with rx := [0, 0xFF, 0, 0, 0, 0x01, 0x00, 0x16] }).1 = TRANSFER_ERROR ∧
    (ReadStatusPacketFromEzI2C psoc4 doneTransport).1 = TRANSFER_CMPLT :=
  ⟨(C2_read_complete_iff psoc4
      { doneTransport with rx := [0, 0xFF, 0, 0, 0, 0x01, 0x00, 0x16] }).2.2.2.2.1
      (Or.inr (by decide)),
    (C2_read_complete_iff psoc4 doneTransport).1.2
      ⟨rfl, ⟨0, by decide, ⟨fun i hi => absurd hi (Nat.not_lt_zero i), by decide⟩, by decide⟩,
        by decide, by decide, by decide⟩⟩

/-- C3, as stated, fails: on a transport that accepts the submission and
never clears busy, both operations return the status byte 0xFF
(`TRANSFER_ERROR`), the very byte they return when the submission is
rejected, so no reading of the returned status yields the outcome TimedOut for
the one and Failed for the other. -/
theorem C3_returns_TimedOut_counterexample :
    stuckTransport.submit = psoc4.CY_SCB_I2C_SUCCESS ∧
    (∀ k, Busy psoc4 stuckTransport k) ∧
    rejectingTransport.submit ≠ psoc4.CY_SCB_I2C_SUCCESS ∧
    (WritePacketToEzI2C psoc4 stuckTransport [0x00, 0x01, 0xFF, 0x17] 4).1 = 0xFF ∧
    (WritePacketToEzI2C psoc4 rejectingTransport [0x00, 0x01, 0xFF, 0x17] 4).1 = 0xFF ∧
    (ReadStatusPacketFromEzI2C psoc4 stuckTransport).1 = 0xFF ∧
    (ReadStatusPacketFromEzI2C psoc4 rejectingTransport).1 = 0xFF ∧
    (¬ ∃ decode : Nat → Outcome,
      decode (WritePacketToEzI2C psoc4 stuckTransport [0x00, 0x01, 0xFF, 0x17] 4).1 =
          Outcome.TimedOut ∧
      decode (WritePacketToEzI2C psoc4 rejectingTransport [0x00, 0x01, 0xFF, 0x17] 4).1 =
          Outcome.Failed) ∧
    (¬ ∃ decode : Nat → Outcome,
      decode (ReadStatusPacketFromEzI2C psoc4 stuckTransport).1 = Outcome.TimedOut ∧
      decode (ReadStatusPacketFromEzI2C psoc4 rejectingTransport).1 = Outcome.Failed) := by
  have hb : ∀ k, Busy psoc4 stuckTransport k := stuckTransport_busy
  have hs : stuckTransport.submit = psoc4.CY_SCB_I2C_SUCCESS := rfl
  have hr : rejectingTransport.submit ≠ psoc4.CY_SCB_I2C_SUCCESS := by decide
  have w1 := write_expire psoc4 stuckTransport [0x00, 0x01, 0xFF, 0x17] 4 hs (fun i _ => hb i)
  have w2 := write_rejected psoc4 rejectingTransport [0x00, 0x01, 0xFF, 0x17] 4 hr
  have r1 := read_expire psoc4 stuckTransport hs (fun i _ => hb i)
  have r2 := read_rejected psoc4 rejectingTransport hr
  refine ⟨hs, hb, hr, ?_, ?_, ?_, ?_, ?_, ?_⟩
  · rw [w1]; rfl
  · rw [w2]; rfl
  · rw [r1]; rfl
  · rw [r2]; rfl
  · rintro ⟨d, h1, h2⟩
    rw [w1] at h1
    rw [w2] at h2
    simp only at h1 h2
    rw [h1] at h2
    cases h2
  · rintro ⟨d, h1, h2⟩
    rw [r1] at h1
    rw [r2] at h2
    simp only at h1 h2
    rw [h1] at h2
    cases h2

/-- C3, amended: on a transport that accepts the submission and reports busy
at every status query, each of `WritePacketToEzI2C` and
`ReadStatusPacketFromEzI2C` makes 1,000,000 status queries, each followed by a
delay, then issues one `Cy_SCB_I2C_Disable` followed by one
`Cy_SCB_I2C_Enable` and nothing else, and returns `TRANSFER_ERROR`. -/
theorem C3_timeout_resets_once (P : Pdl) (t : Transport) (wb : List Nat) (sz : Nat)
    (hs : t.submit = P.CY_SCB_I2C_SUCCESS) (hb : ∀ k, Busy P t k) :
    WritePacketToEzI2C P t wb sz =
      (TRANSFER_ERROR, Event.Cy_SCB_I2C_MasterWrite wb sz :: pollEvents P 1000000 ++
        [Event.Cy_SCB_I2C_Disable, Event.Cy_SCB_I2C_Enable]) ∧
    ReadStatusPacketFromEzI2C P t =
      (TRANSFER_ERROR, Event.Cy_SCB_I2C_MasterRead READ_PACKET_SIZE :: pollEvents P 1000000 ++
        [Event.Cy_SCB_I2C_Disable, Event.Cy_SCB_I2C_Enable]) ∧
    (WritePacketToEzI2C P t wb sz).2.count Event.Cy_SCB_I2C_Disable = 1 ∧
    (WritePacketToEzI2C P t wb sz).2.count Event.Cy_SCB_I2C_Enable = 1 ∧
    (ReadStatusPacketFromEzI2C P t).2.count Event.Cy_SCB_I2C_Disable = 1 ∧
    (ReadStatusPacketFromEzI2C P t).2.count Event.Cy_SCB_I2C_Enable = 1 ∧
    (WritePacketToEzI2C P t wb sz).2.count Event.Cy_SCB_I2C_MasterGetStatus = 1000000 ∧
    (ReadStatusPacketFromEzI2C P t).2.count Event.Cy_SCB_I2C_MasterGetStatus = 1000000 := by
  have w := write_expire P t wb sz hs (fun i _ => hb i)
  have r := read_expire P t hs (fun i _ => hb i)
  have hd := count_pollEvents_other P 1000000 Event.Cy_SCB_I2C_Disable (by simp) (by simp)
  have he := count_pollEvents_other P 1000000 Event.Cy_SCB_I2C_Enable (by simp) (by simp)
  have hg := count_status_pollEvents P 1000000
  simp only [TIMEOUT_INIT] at w r
  refine ⟨w, r, ?_, ?_, ?_, ?_, ?_, ?_⟩ <;>
    first
      | (rw [w]; simp [List.count_cons, List.count_append, hd, he, hg])
      | (rw [r]; simp [List.count_cons, List.count_append, hd, he, hg])

/-- Witness of C3: the transport that reports busy for ever. -/
theorem C3_timeout_resets_once_witness :
    stuckTransport.submit = psoc4.CY_SCB_I2C_SUCCESS ∧
    (∀ k, Busy psoc4 stuckTransport k) ∧
    (WritePacketToEzI2C psoc4 stuckTransport [0x00, 0x01, 0xFF, 0x17] 4).1 = TRANSFER_ERROR ∧
    (WritePacketToEzI2C psoc4 stuckTransport [0x00, 0x01, 0xFF, 0x17] 4).2.count
      Event.Cy_SCB_I2C_Disable = 1 :=
  ⟨rfl, stuckTransport_busy,
    congrArg Prod.fst
      (C3_timeout_resets_once psoc4 stuckTransport [0x00, 0x01, 0xFF, 0x17] 4 rfl
        stuckTransport_busy).1,
    (C3_timeout_resets_once psoc4 stuckTransport [0x00, 0x01, 0xFF, 0x17] 4 rfl
        stuckTransport_busy).2.2.1⟩

/-- C9: only a timeout triggers the transport reset.  When the submission is
rejected, each operation returns `TRANSFER_ERROR` and its only effect is the
submission call: no status query, no delay, no reset.  A reset event
(`Cy_SCB_I2C_Disable` or `Cy_SCB_I2C_Enable`) is issued exactly when the
submission was accepted and the countdown expired (the first 999,999 queries
all report busy); whenever some query among the first 999,999 reports the busy
bit clear, so that the error flags, the byte count or the reply frame decide
the result, no reset event is issued. -/
theorem C9_only_timeout_resets (P : Pdl) (t : Transport) (wb : List Nat) (sz : Nat) :
    (t.submit ≠ P.CY_SCB_I2C_SUCCESS →
      WritePacketToEzI2C P t wb sz = (TRANSFER_ERROR, [Event.Cy_SCB_I2C_MasterWrite wb sz]) ∧
      ReadStatusPacketFromEzI2C P t =
        (TRANSFER_ERROR, [Event.Cy_SCB_I2C_MasterRead READ_PACKET_SIZE])) ∧
    (ResetIssued (WritePacketToEzI2C P t wb sz).2 ↔
      t.submit = P.CY_SCB_I2C_SUCCESS ∧ ∀ i, i + 1 < TIMEOUT_INIT → Busy P t i) ∧
    (ResetIssued (ReadStatusPacketFromEzI2C P t).2 ↔
      t.submit = P.CY_SCB_I2C_SUCCESS ∧ ∀ i, i + 1 < TIMEOUT_INIT → Busy P t i) ∧
    (∀ j, j + 1 < TIMEOUT_INIT → FirstIdle P t j →
      ¬ ResetIssued (WritePacketToEzI2C P t wb sz).2 ∧
      ¬ ResetIssued (ReadStatusPacketFromEzI2C P t).2) := by
  have hw : ResetIssued (WritePacketToEzI2C P t wb sz).2 ↔
      t.submit = P.CY_SCB_I2C_SUCCESS ∧ ∀ i, i + 1 < TIMEOUT_INIT → Busy P t i := by
    by_cases hs : t.submit = P.CY_SCB_I2C_SUCCESS
    · rcases idle_or_expire P t with ⟨j, hj, hf⟩ | hb
      · rw [write_idle P t wb sz j hs hj hf]
        constructor
        · intro h
          exfalso
          by_cases he : NoErrorFlag P (t.status j)
          · simp only [he, if_true, ResetIssued, List.mem_cons, List.mem_append,
              reduceCtorEq, false_or, List.mem_singleton, or_false, List.not_mem_nil] at h
            exact not_reset_pollEvents P (j + 1) h
          · simp only [he, if_false, ResetIssued, List.mem_cons, reduceCtorEq, false_or] at h
            exact not_reset_pollEvents P (j + 1) h
        · rintro ⟨_, hb⟩
          exact absurd (hb j hj) hf.2
      · rw [write_expire P t wb sz hs hb]
        exact ⟨fun _ => ⟨hs, hb⟩, fun _ => Or.inl (by simp)⟩
    · rw [write_rejected P t wb sz hs]
      constructor
      · intro h
        simp [ResetIssued] at h
      · rintro ⟨h, _⟩
        exact absurd h hs
  have hr : ResetIssued (ReadStatusPacketFromEzI2C P t).2 ↔
      t.submit = P.CY_SCB_I2C_SUCCESS ∧ ∀ i, i + 1 < TIMEOUT_INIT → Busy P t i := by
    by_cases hs : t.submit = P.CY_SCB_I2C_SUCCESS
    · rcases idle_or_expire P t with ⟨j, hj, hf⟩ | hb
      · rw [read_idle P t j hs hj hf]
        constructor
        · intro h
          exfalso
          simp only [ResetIssued, List.mem_cons, reduceCtorEq, false_or] at h
          exact not_reset_pollEvents P (j + 1) h
        · rintro ⟨_, hb⟩
          exact absurd (hb j hj) hf.2
      · rw [read_expire P t hs hb]
        exact ⟨fun _ => ⟨hs, hb⟩, fun _ => Or.inl (by simp)⟩
    · rw [read_rejected P t hs]
      constructor
      · intro h
        simp [ResetIssued] at h
      · rintro ⟨h, _⟩
        exact absurd h hs
  refine ⟨fun hs => ⟨write_rejected P t wb sz hs, read_rejected P t hs⟩, hw, hr, ?_⟩
  intro j hj hf
  exact ⟨fun h => hf.2 ((hw.1 h).2 j hj), fun h => hf.2 ((hr.1 h).2 j hj)⟩

/-- Witness of C9: a rejected submission is followed by no call at all, and a
short write issues no reset. -/
theorem C9_only_timeout_resets_witness :
    WritePacketToEzI2C psoc4 rejectingTransport [0x00, 0x01, 0xFF, 0x17] 4 =
      (TRANSFER_ERROR, [Event.Cy_SCB_I2C_MasterWrite [0x00, 0x01, 0xFF, 0x17] 4]) ∧
    ¬ ResetIssued (WritePacketToEzI2C psoc4 shortTransport [0x00, 0x01, 0xFF, 0x17] 4).2 :=
  ⟨((C9_only_timeout_resets psoc4 rejectingTransport [0x00, 0x01, 0xFF, 0x17] 4).1
      (by decide)).1,
    ((C9_only_timeout_resets psoc4 shortTransport [0x00, 0x01, 0xFF, 0x17] 4).2.2.2 0
      (by decide) ⟨fun i hi => absurd hi (Nat.not_lt_zero i), by decide⟩).1⟩

/-- The transport that completes at query number 1,000,000 reports busy at
each of the first 999,999 queries. -/
theorem lastPollTransport_busy (i : Nat) (hi : i + 1 < TIMEOUT_INIT) :
    Busy psoc4 lastPollTransport i := by
  have hi' : i + 1 < 1000000 := hi
  simp only [Busy, lastPollTransport, psoc4, hi', if_true]
  decide

/-- C10, evaluated where it fails: the transport accepts the submission,
reports busy at the first 999,999 status queries and, at query number
1,000,000, reports the busy bit clear with no error flag, all 4 bytes
transferred and a Done reply in the receive buffer.  Both operations take the
timeout path all the same: they issue `Cy_SCB_I2C_Disable` and
`Cy_SCB_I2C_Enable` and return `TRANSFER_ERROR`, without looking at the error
flags, the byte count or the reply frame. -/
theorem C10_idle_at_last_poll_times_out :
    lastPollTransport.submit = psoc4.CY_SCB_I2C_SUCCESS ∧
    ¬ Busy psoc4 lastPollTransport 999999 ∧
    NoErrorFlag psoc4 (lastPollTransport.status 999999) ∧
    lastPollTransport.count = WRITE_PACKET_SIZE ∧
    ReplyDone lastPollTransport.rx ∧
    WritePacketToEzI2C psoc4 lastPollTransport [0x00, 0x01, 0xFF, 0x17] 4 =
      (TRANSFER_ERROR,
        Event.Cy_SCB_I2C_MasterWrite [0x00, 0x01, 0xFF, 0x17] 4 :: pollEvents psoc4 1000000 ++
          [Event.Cy_SCB_I2C_Disable, Event.Cy_SCB_I2C_Enable]) ∧
    ReadStatusPacketFromEzI2C psoc4 lastPollTransport =
      (TRANSFER_ERROR,
        Event.Cy_SCB_I2C_MasterRead READ_PACKET_SIZE :: pollEvents psoc4 1000000 ++
          [Event.Cy_SCB_I2C_Disable, Event.Cy_SCB_I2C_Enable]) ∧
    (WritePacketToEzI2C psoc4 lastPollTransport [0x00, 0x01, 0xFF, 0x17] 4).1 ≠
      TRANSFER_CMPLT ∧
    (ReadStatusPacketFromEzI2C psoc4 lastPollTransport).1 ≠ TRANSFER_CMPLT := by
  have w := write_expire psoc4 lastPollTransport [0x00, 0x01, 0xFF, 0x17] 4 rfl
    lastPollTransport_busy
  have r := read_expire psoc4 lastPollTransport rfl lastPollTransport_busy
  simp only [TIMEOUT_INIT] at w r
  refine ⟨rfl, by decide, by decide, rfl, by decide, w, r, ?_, ?_⟩
  · rw [w]; decide
  · rw [r]; decide

/-- C11, as stated, fails: the caller passes a three-byte buffer with
`bufferSize` 3; the transport accepts the submission, reports the busy bit
clear with no error flag at the first status query and reports 3 bytes
transferred, the size the caller passed.  The code compares the transfer count
with the fixed frame size `WRITE_PACKET_SIZE` and not with `bufferSize`, and
returns `TRANSFER_ERROR`; the returned status is the same for every
`bufferSize`. -/
theorem C11_bufferSize_counterexample :
    shortTransport.submit = psoc4.CY_SCB_I2C_SUCCESS ∧
    FirstIdle psoc4 shortTransport 0 ∧
    NoErrorFlag psoc4 (shortTransport.status 0) ∧
    shortTransport.count = 3 ∧
    WritePacketToEzI2C psoc4 shortTransport [0x00, 0x01, 0xFF] 3 =
      (TRANSFER_ERROR,
        [Event.Cy_SCB_I2C_MasterWrite [0x00, 0x01, 0xFF] 3, Event.Cy_SCB_I2C_MasterGetStatus,
          Event.Cy_SysLib_DelayUs 1, Event.Cy_SCB_I2C_MasterGetTransferCount]) ∧
    (WritePacketToEzI2C psoc4 shortTransport [0x00, 0x01, 0xFF] 3).1 ≠ TRANSFER_CMPLT ∧
    (∀ (wb : List Nat) (sz : Nat),
      (WritePacketToEzI2C psoc4 shortTransport wb sz).1 = TRANSFER_ERROR) := by
  have hf : FirstIdle psoc4 shortTransport 0 :=
    ⟨fun i hi => absurd hi (Nat.not_lt_zero i), by decide⟩
  have hw : ∀ (wb : List Nat) (sz : Nat), WritePacketToEzI2C psoc4 shortTransport wb sz =
      (TRANSFER_ERROR, [Event.Cy_SCB_I2C_MasterWrite wb sz, Event.Cy_SCB_I2C_MasterGetStatus,
        Event.Cy_SysLib_DelayUs 1, Event.Cy_SCB_I2C_MasterGetTransferCount]) := by
    intro wb sz
    rw [write_idle psoc4 shortTransport wb sz 0 rfl (by decide) hf]
    have he : NoErrorFlag psoc4 (shortTransport.status 0) := by decide
    have hc : ¬ WRITE_PACKET_SIZE = shortTransport.count := by decide
    rw [if_pos he, if_neg hc]
    rfl
  refine ⟨rfl, hf, by decide, rfl, hw _ _, ?_, fun wb sz => by rw [hw]⟩
  rw [hw]
  decide

/-- C11, amended: for every buffer and every `bufferSize` argument, a call of
`WritePacketToEzI2C` whose submission is accepted, whose busy bit clears at one
of the first 999,999 status queries (before the countdown expires) with no
error flag set, and whose reported transfer count equals the fixed frame size
`WRITE_PACKET_SIZE` returns `TRANSFER_CMPLT`, after exactly the submission, the
status queries with their delays and one transfer-count query.  So the claim
holds as stated when the caller passes `bufferSize = WRITE_PACKET_SIZE`; a
transfer count other than `WRITE_PACKET_SIZE` gives `TRANSFER_ERROR`, and the
returned status is the same for every `bufferSize`. -/
theorem C11_write_complete_fixed_frame (P : Pdl) (t : Transport) (wb : List Nat)
    (sz j : Nat) (hs : t.submit = P.CY_SCB_I2C_SUCCESS) (hj : j + 1 < TIMEOUT_INIT)
    (hf : FirstIdle P t j) (he : NoErrorFlag P (t.status j)) :
    (t.count = WRITE_PACKET_SIZE →
      WritePacketToEzI2C P t wb sz =
        (TRANSFER_CMPLT, Event.Cy_SCB_I2C_MasterWrite wb sz :: pollEvents P (j + 1) ++
          [Event.Cy_SCB_I2C_MasterGetTransferCount])) ∧
    (t.count = sz → sz = WRITE_PACKET_SIZE →
      (WritePacketToEzI2C P t wb sz).1 = TRANSFER_CMPLT) ∧
    (t.count ≠ WRITE_PACKET_SIZE →
      WritePacketToEzI2C P t wb sz =
        (TRANSFER_ERROR, Event.Cy_SCB_I2C_MasterWrite wb sz :: pollEvents P (j + 1) ++
          [Event.Cy_SCB_I2C_MasterGetTransferCount])) ∧
    (∀ sz2, (WritePacketToEzI2C P t wb sz2).1 = (WritePacketToEzI2C P t wb sz).1) ∧
    TRANSFER_CMPLT ≠ TRANSFER_ERROR ∧ WRITE_PACKET_SIZE = 4 := by
  have hw : ∀ sz2, WritePacketToEzI2C P t wb sz2 =
      (if WRITE_PACKET_SIZE = t.count then TRANSFER_CMPLT else TRANSFER_ERROR,
        Event.Cy_SCB_I2C_MasterWrite wb sz2 :: pollEvents P (j + 1) ++
          [Event.Cy_SCB_I2C_MasterGetTransferCount]) := by
    intro sz2
    rw [write_idle P t wb sz2 j hs hj hf, if_pos he]
  refine ⟨?_, ?_, ?_, ?_, by decide, rfl⟩
  · intro hc
    rw [hw, if_pos hc.symm]
  · intro hc hsz
    rw [hw, if_pos (hc.trans hsz).symm]
  · intro hc
    rw [hw, if_neg (fun h => hc h.symm)]
  · intro sz2
    rw [hw, hw]

/-- Witness of C11: the four-byte command frame, accepted, completed at the
first status query without error, four bytes transferred. -/
theorem C11_write_complete_fixed_frame_witness :
    fullTransport.count = WRITE_PACKET_SIZE ∧
    (WritePacketToEzI2C psoc4 fullTransport [0x00, 0x01, 0xFF, 0x17] 4).1 = TRANSFER_CMPLT ∧
    (WritePacketToEzI2C psoc4 fullTransport [0x00, 0x01, 0xFF, 0x17] 4).2 =
      [Event.Cy_SCB_I2C_MasterWrite [0x00, 0x01, 0xFF, 0x17] 4,
        Event.Cy_SCB_I2C_MasterGetStatus, Event.Cy_SysLib_DelayUs 1,
        Event.Cy_SCB_I2C_MasterGetTransferCount] :=
  ⟨rfl,
    congrArg Prod.fst
      ((C11_write_complete_fixed_frame psoc4 fullTransport [0x00, 0x01, 0xFF, 0x17] 4 0 rfl
        (by decide) ⟨fun i hi => absurd hi (Nat.not_lt_zero i), by decide⟩ (by decide)).1 rfl),
    congrArg Prod.snd
      ((C11_write_complete_fixed_frame psoc4 fullTransport [0x00, 0x01, 0xFF, 0x17] 4 0 rfl
        (by decide) ⟨fun i hi => absurd hi (Nat.not_lt_zero i), by decide⟩ (by decide)).1 rfl)⟩

/-- The loop makes n delays in n passes. -/
theorem count_delay_pollEvents (P : Pdl) (n : Nat) :
    (pollEvents P n).count (Event.Cy_SysLib_DelayUs P.CY_SCB_WAIT_1_UNIT) = n := by
  induction n with
  | zero => simp [pollEvents]
  | succ n ih =>
    rw [pollEvents_succ]
    simp [List.count_cons, ih]

/-- The countdown after k passes through the loop body, k ≤ 1,000,000, is
1,000,000 - k: no decrement wraps. -/
theorem pollBody_iterate (P : Pdl) (t : Transport) (tr : List Event) (k : Nat)
    (hk : k ≤ TIMEOUT_INIT) :
    (pollBody P t)^[k]
        { masterStatus := 0, timeout := TIMEOUT_INIT, polls := 0, trace := tr } =
      { masterStatus := if k = 0 then 0 else t.status (k - 1)
        timeout := TIMEOUT_INIT - k
        polls := k
        trace := tr ++ pollEvents P k } := by
  induction k with
  | zero => simp [pollEvents]
  | succ k ih =>
    rw [Function.iterate_succ_apply', ih (by omega)]
    have hdec : (TIMEOUT_INIT - k + 2 ^ 32 - 1) % 2 ^ 32 = TIMEOUT_INIT - (k + 1) := by
      simp only [TIMEOUT_INIT] at hk ⊢
      omega
    have hev : pollEvents P (k + 1) = pollEvents P k ++
        [Event.Cy_SCB_I2C_MasterGetStatus, Event.Cy_SysLib_DelayUs P.CY_SCB_WAIT_1_UNIT] := by
      simp [pollEvents, List.replicate_succ']
    simp only [pollBody, hdec, hev, List.append_assoc, LoopState.mk.injEq]
    simp

/-- The write operation, once the submission is accepted, makes as many
status queries and delays as the loop makes passes. -/
theorem write_poll_counts (P : Pdl) (t : Transport) (wb : List Nat) (sz n m w : Nat)
    (hs : t.submit = P.CY_SCB_I2C_SUCCESS)
    (h : pollLoop P t
        { masterStatus := 0, timeout := TIMEOUT_INIT, polls := 0,
          trace := [Event.Cy_SCB_I2C_MasterWrite wb sz] } =
      { masterStatus := w, timeout := m, polls := n,
        trace := [Event.Cy_SCB_I2C_MasterWrite wb sz] ++ pollEvents P n }) :
    (WritePacketToEzI2C P t wb sz).2.count Event.Cy_SCB_I2C_MasterGetStatus = n ∧
    (WritePacketToEzI2C P t wb sz).2.count (Event.Cy_SysLib_DelayUs P.CY_SCB_WAIT_1_UNIT) = n := by
  have hg := count_status_pollEvents P n
  have hd := count_delay_pollEvents P n
  simp only [WritePacketToEzI2C, hs, if_true, h]
  split_ifs <;> simp [List.count_cons, List.count_append, hg, hd]

/-- The read operation, once the submission is accepted, makes as many
status queries and delays as the loop makes passes. -/
theorem read_poll_counts (P : Pdl) (t : Transport) (n m w : Nat)
    (hs : t.submit = P.CY_SCB_I2C_SUCCESS)
    (h : pollLoop P t
        { masterStatus := 0, timeout := TIMEOUT_INIT, polls := 0,
          trace := [Event.Cy_SCB_I2C_MasterRead READ_PACKET_SIZE] } =
      { masterStatus := w, timeout := m, polls := n,
        trace := [Event.Cy_SCB_I2C_MasterRead READ_PACKET_SIZE] ++ pollEvents P n }) :
    (ReadStatusPacketFromEzI2C P t).2.count Event.Cy_SCB_I2C_MasterGetStatus = n ∧
    (ReadStatusPacketFromEzI2C P t).2.count (Event.Cy_SysLib_DelayUs P.CY_SCB_WAIT_1_UNIT) = n := by
  have hg := count_status_pollEvents P n
  have hd := count_delay_pollEvents P n
  simp only [ReadStatusPacketFromEzI2C, hs, if_true, h]
  split_ifs <;> simp [List.count_cons, List.count_append, hg, hd]

/-- The number of passes the loop makes, with what holds of it: the loop
result, the passes as iterations of the body, the queries before the last one
all busy, the last one idle unless the budget is exhausted. -/
theorem pollLoop_passes (P : Pdl) (t : Transport) (tr : List Event) :
    ∃ n, 1 ≤ n ∧ n ≤ 1000000 ∧
      pollLoop P t { masterStatus := 0, timeout := TIMEOUT_INIT, polls := 0, trace := tr } =
        { masterStatus := t.status (n - 1), timeout := 1000000 - n, polls := n,
          trace := tr ++ pollEvents P n } ∧
      (∀ i, i + 1 < n → Busy P t i) ∧
      (n < 1000000 → ¬ Busy P t (n - 1)) := by
  rcases idle_or_expire P t with ⟨j, hj, hf⟩ | hb
  · refine ⟨j + 1, by omega, by simp only [TIMEOUT_INIT] at hj; omega, ?_, ?_, ?_⟩
    · rw [pollLoop_idle P t tr j hj hf]; simp [TIMEOUT_INIT]
    · intro i hi; exact hf.1 i (by omega)
    · intro _; simpa using hf.2
  · refine ⟨1000000, by omega, by omega, ?_, ?_, ?_⟩
    · rw [pollLoop_expire P t tr hb]; simp [TIMEOUT_INIT]
    · intro i hi; exact hb i hi
    · intro h; omega

/-- C14: for every sequence of status values, the polling loop of
`WritePacketToEzI2C` and of `ReadStatusPacketFromEzI2C` terminates after a
number n of passes with 1 ≤ n ≤ 1,000,000, each pass being one status query
followed by one delay; every query before the last reports busy, and the loop
stops at the first query that reports the busy bit clear when that query is
among the first 1,000,000.  The countdown is 1,000,000 - k after k passes, for
every k ≤ 1,000,000, so no decrement wraps; after the loop `timeout <= 0` is the
same as `timeout == 0` and holds exactly when n = 1,000,000.  Once the
submission is accepted, each operation makes exactly n status queries and n
delays. -/
theorem C14_polling_bounded (P : Pdl) (t : Transport) (wb : List Nat) (sz : Nat)
    (pre : List Event) :
    (∃ n, 1 ≤ n ∧ n ≤ 1000000 ∧
      pollLoop P t { masterStatus := 0, timeout := TIMEOUT_INIT, polls := 0, trace := pre } =
        { masterStatus := t.status (n - 1), timeout := 1000000 - n, polls := n,
          trace := pre ++ pollEvents P n } ∧
      pollLoop P t { masterStatus := 0, timeout := TIMEOUT_INIT, polls := 0, trace := pre } =
        (pollBody P t)^[n]
          { masterStatus := 0, timeout := TIMEOUT_INIT, polls := 0, trace := pre } ∧
      (pollEvents P n).count Event.Cy_SCB_I2C_MasterGetStatus = n ∧
      (pollEvents P n).count (Event.Cy_SysLib_DelayUs P.CY_SCB_WAIT_1_UNIT) = n ∧
      (pollEvents P n).length = 2 * n ∧
      (∀ i, i + 1 < n → Busy P t i) ∧
      (n < 1000000 → ¬ Busy P t (n - 1)) ∧
      (∀ j, j < 1000000 → FirstIdle P t j → n = j + 1) ∧
      ((pollLoop P t
          { masterStatus := 0, timeout := TIMEOUT_INIT, polls := 0, trace := pre }).timeout ≤ 0 ↔
        (pollLoop P t
          { masterStatus := 0, timeout := TIMEOUT_INIT, polls := 0, trace := pre }).timeout = 0) ∧
      ((pollLoop P t
          { masterStatus := 0, timeout := TIMEOUT_INIT, polls := 0, trace := pre }).timeout ≤ 0 ↔
        n = 1000000) ∧
      (t.submit = P.CY_SCB_I2C_SUCCESS →
        (WritePacketToEzI2C P t wb sz).2.count Event.Cy_SCB_I2C_MasterGetStatus = n ∧
        (WritePacketToEzI2C P t wb sz).2.count
          (Event.Cy_SysLib_DelayUs P.CY_SCB_WAIT_1_UNIT) = n ∧
        (ReadStatusPacketFromEzI2C P t).2.count Event.Cy_SCB_I2C_MasterGetStatus = n ∧
        (ReadStatusPacketFromEzI2C P t).2.count
          (Event.Cy_SysLib_DelayUs P.CY_SCB_WAIT_1_UNIT) = n)) ∧
    (∀ k, k ≤ 1000000 →
      ((pollBody P t)^[k]
        { masterStatus := 0, timeout := TIMEOUT_INIT, polls := 0, trace := pre }).timeout =
          1000000 - k ∧
      ((pollBody P t)^[k]
        { masterStatus := 0, timeout := TIMEOUT_INIT, polls := 0, trace := pre }).polls = k) := by
  constructor
  · obtain ⟨n, h1, h2, hloop, hbusy, hidle⟩ := pollLoop_passes P t pre
    have hn0 : n ≠ 0 := by omega
    refine ⟨n, h1, h2, hloop, ?_, count_status_pollEvents P n, count_delay_pollEvents P n, ?_,
      hbusy, hidle, ?_, ?_, ?_, ?_⟩
    · rw [hloop, pollBody_iterate P t pre n (by simp only [TIMEOUT_INIT]; omega)]
      simp [hn0, TIMEOUT_INIT]
    · simp [pollEvents, Nat.mul_comm]
    · intro j hj hf
      rcases Nat.lt_trichotomy n (j + 1) with h | h | h
      · exact absurd (hf.1 (n - 1) (by omega)) (hidle (by omega))
      · exact h
      · exact absurd (hbusy j h) hf.2
    · exact Nat.le_zero
    · rw [hloop]
      simp only
      omega
    · intro hs
      obtain ⟨m, _, _, hw, hbusyw, hidlew⟩ :=
        pollLoop_passes P t [Event.Cy_SCB_I2C_MasterWrite wb sz]
      have hmn : m = n := by
        rcases Nat.lt_trichotomy m n with h | h | h
        · exact absurd (hbusy (m - 1) (by omega)) (hidlew (by omega))
        · exact h
        · exact absurd (hbusyw (n - 1) (by omega)) (hidle (by omega))
      subst hmn
      obtain ⟨w1, w2⟩ := write_poll_counts P t wb sz m _ _ hs hw
      obtain ⟨k, _, _, hk, hbusyk, hidlek⟩ :=
        pollLoop_passes P t [Event.Cy_SCB_I2C_MasterRead READ_PACKET_SIZE]
      have hkm : k = m := by
        rcases Nat.lt_trichotomy k m with h | h | h
        · exact absurd (hbusy (k - 1) (by omega)) (hidlek (by omega))
        · exact h
        · exact absurd (hbusyk (m - 1) (by omega)) (hidle (by omega))
      subst hkm
      obtain ⟨r1, r2⟩ := read_poll_counts P t k _ _ hs hk
      exact ⟨w1, w2, r1, r2⟩
  · intro k hk
    rw [pollBody_iterate P t pre k (by simp only [TIMEOUT_INIT]; omega)]
    simp [TIMEOUT_INIT]

/-! ## I2CSlave.c: the claims -/

/-- A buffer of 8 bytes is a list of 8 elements. -/
theorem length_eight (b : List Nat) (h : b.length = 8) :
    ∃ b0 b1 b2 b3 b4 b5 b6 b7, b = [b0, b1, b2, b3, b4, b5, b6, b7] := by
  rcases b with _ | ⟨b0, _ | ⟨b1, _ | ⟨b2, _ | ⟨b3, _ | ⟨b4, _ | ⟨b5, _ | ⟨b6, _ | ⟨b7, _ | ⟨b8, r⟩⟩⟩⟩⟩⟩⟩⟩⟩ <;>
    simp at h
  exact ⟨b0, b1, b2, b3, b4, b5, b6, b7, rfl⟩

/-- `CheckEzI2Cbuffer` on a well-formed inbound frame when the gate passes. -/
theorem check_valid (P : Pdl) (act b1 b3 b4 b5 b6 b7 : Nat) (hg : GatePasses P act) :
    CheckEzI2Cbuffer P act [0x01, b1, 0x17, b3, b4, b5, b6, b7] =
      ([0x00, b1, 0x00, b3, b4, 0x01, 0x00, 0x17],
        [Event.NVIC_DisableIRQ P.CYBSP_EZI2C_IRQ, Event.Cy_SCB_EZI2C_GetActivity,
          Event.BufferRead 0, Event.BufferRead 2, Event.BufferRead 1, Event.Cy_GPIO_Write b1,
          Event.BufferWrite 0 0, Event.BufferWrite 2 0, Event.BufferWrite 5 0x01,
          Event.BufferWrite 6 0x00, Event.BufferWrite 7 0x17,
          Event.NVIC_EnableIRQ P.CYBSP_EZI2C_IRQ]) := by
  unfold GatePasses at hg
  simp only [CheckEzI2Cbuffer, if_pos hg]
  simp [EzPACKET_SOP_POS, EzPACKET_EOP_POS, EzPACKET_CMD_POS,
    PACKET_RPLY_SOP_POS, PACKET_RPLY_STS_POS, PACKET_RPLY_EOP_POS, PACKET_SOP, PACKET_EOP,
    STS_CMD_DONE, ZERO]

/-- `CheckEzI2Cbuffer` on a malformed inbound frame when the gate passes:
the buffer on return and the actuator calls. -/
theorem check_invalid (P : Pdl) (act b0 b1 b2 b3 b4 b5 b6 b7 : Nat) (hg : GatePasses P act)
    (hbad : b0 ≠ 0x01 ∨ b2 ≠ 0x17) :
    (CheckEzI2Cbuffer P act [b0, b1, b2, b3, b4, b5, b6, b7]).1 =
        [b0, b1, b2, b3, b4, 0x01, 0xFF, 0x17] ∧
    actuatorCalls (CheckEzI2Cbuffer P act [b0, b1, b2, b3, b4, b5, b6, b7]).2 = [] := by
  unfold GatePasses at hg
  by_cases h0 : b0 = 0x01
  · have h2 : b2 ≠ 0x17 := by
      rcases hbad with h | h
      · exact absurd h0 h
      · exact h
    simp only [CheckEzI2Cbuffer, if_pos hg]
    simp [replyFail, actuatorCalls, h0, h2, EzPACKET_SOP_POS,
      EzPACKET_EOP_POS, PACKET_RPLY_SOP_POS, PACKET_RPLY_STS_POS, PACKET_RPLY_EOP_POS,
      PACKET_SOP, PACKET_EOP, STS_CMD_FAIL]
  · simp only [CheckEzI2Cbuffer, if_pos hg]
    simp [replyFail, actuatorCalls, h0, EzPACKET_SOP_POS,
      PACKET_RPLY_SOP_POS, PACKET_RPLY_STS_POS, PACKET_RPLY_EOP_POS,
      PACKET_SOP, PACKET_EOP, STS_CMD_FAIL]

/-- `CheckEzI2Cbuffer` when the gate does not pass. -/
theorem check_closed (P : Pdl) (act : Nat) (b : List Nat) (hg : ¬ GatePasses P act) :
    CheckEzI2Cbuffer P act b =
      (b, [Event.NVIC_DisableIRQ P.CYBSP_EZI2C_IRQ, Event.Cy_SCB_EZI2C_GetActivity,
        Event.NVIC_EnableIRQ P.CYBSP_EZI2C_IRQ]) := by
  unfold GatePasses at hg
  simp only [CheckEzI2Cbuffer, if_neg hg]
  simp

/-- C4: for every 8-byte shared buffer b with b[0] = 0x01 and b[2] = 0x17 and
every activity value with WRITE1 set and ERR clear, `CheckEzI2Cbuffer` makes
exactly one actuator call, with value b[1], and leaves the buffer equal to
[0x00, b[1], 0x00, b[3], b[4], 0x01, 0x00, 0x17]. -/
theorem C4_valid_frame_consumed (P : Pdl) (act : Nat) (b : List Nat)
    (hlen : b.length = 8) (h0 : b.getD 0 0 = 0x01) (h2 : b.getD 2 0 = 0x17)
    (hw : act &&& P.CY_SCB_EZI2C_STATUS_WRITE1 ≠ 0)
    (he : act &&& P.CY_SCB_EZI2C_STATUS_ERR = 0) :
    actuatorCalls (CheckEzI2Cbuffer P act b).2 = [b.getD 1 0] ∧
    (CheckEzI2Cbuffer P act b).2.count (Event.Cy_GPIO_Write (b.getD 1 0)) = 1 ∧
    (CheckEzI2Cbuffer P act b).1 =
      [0x00, b.getD 1 0, 0x00, b.getD 3 0, b.getD 4 0, 0x01, 0x00, 0x17] := by
  obtain ⟨b0, b1, b2, b3, b4, b5, b6, b7, rfl⟩ := length_eight b hlen
  simp only [List.getD_cons_zero, List.getD_cons_succ] at h0 h2
  subst h0
  subst h2
  have hg : GatePasses P act := ⟨fun h => hw h.symm, he.symm⟩
  rw [check_valid P act b1 b3 b4 b5 b6 b7 hg]
  simp [actuatorCalls, List.count_cons]

/-- Witness of C4: the command frame [0x01, 0xFF, 0x17] with activity WRITE1. -/
theorem C4_valid_frame_consumed_witness :
    (CheckEzI2Cbuffer psoc4 0x02 [0x01, 0xFF, 0x17, 9, 8, 7, 6, 5]).1 =
      [0x00, 0xFF, 0x00, 9, 8, 0x01, 0x00, 0x17] :=
  (C4_valid_frame_consumed psoc4 0x02 [0x01, 0xFF, 0x17, 9, 8, 7, 6, 5] rfl rfl rfl
    (by decide) (by decide)).2.2

/-- C5: for every 8-byte shared buffer b with b[0] ≠ 0x01 or b[2] ≠ 0x17 and
every activity value with WRITE1 set and ERR clear, `CheckEzI2Cbuffer` makes no
actuator call, writes the reply [0x01, 0xFF, 0x17] at offsets 5..7 and leaves
bytes 0..4 unchanged; every 8-byte buffer with the same bytes at offsets 0 and
2 is rejected in the same way, whatever its other bytes. -/
theorem C5_invalid_frame_rejected (P : Pdl) (act : Nat) (b : List Nat)
    (hlen : b.length = 8) (hbad : b.getD 0 0 ≠ 0x01 ∨ b.getD 2 0 ≠ 0x17)
    (hw : act &&& P.CY_SCB_EZI2C_STATUS_WRITE1 ≠ 0)
    (he : act &&& P.CY_SCB_EZI2C_STATUS_ERR = 0) :
    actuatorCalls (CheckEzI2Cbuffer P act b).2 = [] ∧
    (CheckEzI2Cbuffer P act b).1 =
      [b.getD 0 0, b.getD 1 0, b.getD 2 0, b.getD 3 0, b.getD 4 0, 0x01, 0xFF, 0x17] ∧
    (CheckEzI2Cbuffer P act b).1.take 5 = b.take 5 ∧
    (CheckEzI2Cbuffer P act b).1.drop 5 = [PACKET_SOP, STS_CMD_FAIL, PACKET_EOP] ∧
    (∀ c : List Nat, c.length = 8 → c.getD 0 0 = b.getD 0 0 → c.getD 2 0 = b.getD 2 0 →
      actuatorCalls (CheckEzI2Cbuffer P act c).2 = [] ∧
      (CheckEzI2Cbuffer P act c).1.drop 5 = [PACKET_SOP, STS_CMD_FAIL, PACKET_EOP]) := by
  have hg : GatePasses P act := ⟨fun h => hw h.symm, he.symm⟩
  obtain ⟨b0, b1, b2, b3, b4, b5, b6, b7, rfl⟩ := length_eight b hlen
  simp only [List.getD_cons_zero, List.getD_cons_succ] at hbad ⊢
  obtain ⟨hb, ha⟩ := check_invalid P act b0 b1 b2 b3 b4 b5 b6 b7 hg hbad
  refine ⟨ha, hb, by rw [hb]; rfl, by rw [hb]; rfl, ?_⟩
  intro c hc h0 h2
  obtain ⟨c0, c1, c2, c3, c4, c5, c6, c7, rfl⟩ := length_eight c hc
  simp only [List.getD_cons_zero, List.getD_cons_succ] at h0 h2
  subst h0
  subst h2
  obtain ⟨hb', ha'⟩ := check_invalid P act c0 c1 c2 c3 c4 c5 c6 c7 hg hbad
  exact ⟨ha', by rw [hb']; rfl⟩

/-- Witness of C5: the inbound bytes [0x01, 0x05, 0x00] (wrong end marker). -/
theorem C5_invalid_frame_rejected_witness :
    actuatorCalls (CheckEzI2Cbuffer psoc4 0x02 [0x01, 0x05, 0x00, 9, 8, 7, 6, 5]).2 = [] ∧
    (CheckEzI2Cbuffer psoc4 0x02 [0x01, 0x05, 0x00, 9, 8, 7, 6, 5]).1 =
      [0x01, 0x05, 0x00, 9, 8, 0x01, 0xFF, 0x17] :=
  ⟨(C5_invalid_frame_rejected psoc4 0x02 [0x01, 0x05, 0x00, 9, 8, 7, 6, 5] rfl
      (Or.inr (by decide)) (by decide) (by decide)).1,
    (C5_invalid_frame_rejected psoc4 0x02 [0x01, 0x05, 0x00, 9, 8, 7, 6, 5] rfl
      (Or.inr (by decide)) (by decide) (by decide)).2.1⟩

/-- C6: for every shared buffer content and every activity value in which
WRITE1 is clear or ERR is set, `CheckEzI2Cbuffer` leaves the shared buffer
unchanged and makes no actuator call; its only effects are masking the
interrupt, querying the activity and unmasking the interrupt. -/
theorem C6_gate_closed_no_effect (P : Pdl) (act : Nat) (b : List Nat)
    (h : act &&& P.CY_SCB_EZI2C_STATUS_WRITE1 = 0 ∨ act &&& P.CY_SCB_EZI2C_STATUS_ERR ≠ 0) :
    (CheckEzI2Cbuffer P act b).1 = b ∧
    actuatorCalls (CheckEzI2Cbuffer P act b).2 = [] ∧
    (CheckEzI2Cbuffer P act b).2 =
      [Event.NVIC_DisableIRQ P.CYBSP_EZI2C_IRQ, Event.Cy_SCB_EZI2C_GetActivity,
        Event.NVIC_EnableIRQ P.CYBSP_EZI2C_IRQ] := by
  have hg : ¬ GatePasses P act := by
    rintro ⟨hw, he⟩
    rcases h with h | h
    · exact hw h.symm
    · exact h he.symm
  rw [check_closed P act b hg]
  exact ⟨rfl, rfl, rfl⟩

/-- Witness of C6: a well-formed frame with the error flag set in the
activity value is left in place. -/
theorem C6_gate_closed_no_effect_witness :
    (CheckEzI2Cbuffer psoc4 0x22 [0x01, 0xFF, 0x17, 9, 8, 7, 6, 5]).1 =
        [0x01, 0xFF, 0x17, 9, 8, 7, 6, 5] ∧
    actuatorCalls (CheckEzI2Cbuffer psoc4 0x22 [0x01, 0xFF, 0x17, 9, 8, 7, 6, 5]).2 = [] :=
  ⟨(C6_gate_closed_no_effect psoc4 0x22 [0x01, 0xFF, 0x17, 9, 8, 7, 6, 5]
      (Or.inr (by decide))).1,
    (C6_gate_closed_no_effect psoc4 0x22 [0x01, 0xFF, 0x17, 9, 8, 7, 6, 5]
      (Or.inr (by decide))).2.1⟩

/-- C7: consume-once.  For every 8-byte shared buffer holding a well-formed
inbound frame and every gate-passing activity value, one invocation of
`CheckEzI2Cbuffer` calls the actuator once with the command byte and returns
the 8-byte buffer [0x00, b[1], 0x00, b[3], b[4], 0x01, 0x00, 0x17], in which the
bytes at offsets 0 and 2 are present and zero, so that the frame is no longer
well-formed.  A second invocation on that buffer, for every activity value,
makes no actuator call (no `Cy_GPIO_Write` event at all), returns an 8-byte
buffer whose offsets 0..2 still hold [0x00, b[1], 0x00], and changes nothing
but the reply status, which it sets to 0xFF when its gate passes. -/
theorem C7_consume_once (P : Pdl) (act : Nat) (b : List Nat)
    (hlen : b.length = 8) (hwf : WellFormed b) (hg : GatePasses P act) :
    (CheckEzI2Cbuffer P act b).1 =
      [0x00, b.getD 1 0, 0x00, b.getD 3 0, b.getD 4 0, 0x01, 0x00, 0x17] ∧
    actuatorCalls (CheckEzI2Cbuffer P act b).2 = [b.getD 1 0] ∧
    (CheckEzI2Cbuffer P act b).1[0]? = some 0 ∧
    (CheckEzI2Cbuffer P act b).1[2]? = some 0 ∧
    (CheckEzI2Cbuffer P act b).1.getD 0 0 = 0 ∧
    (CheckEzI2Cbuffer P act b).1.getD 2 0 = 0 ∧
    ¬ WellFormed (CheckEzI2Cbuffer P act b).1 ∧
    ∀ act2 : Nat,
      actuatorCalls (CheckEzI2Cbuffer P act2 (CheckEzI2Cbuffer P act b).1).2 = [] ∧
      (∀ v, Event.Cy_GPIO_Write v ∉ (CheckEzI2Cbuffer P act2 (CheckEzI2Cbuffer P act b).1).2) ∧
      (CheckEzI2Cbuffer P act2 (CheckEzI2Cbuffer P act b).1).1.take 3 =
        (CheckEzI2Cbuffer P act b).1.take 3 ∧
      (CheckEzI2Cbuffer P act2 (CheckEzI2Cbuffer P act b).1).1.take 3 =
        [0x00, b.getD 1 0, 0x00] ∧
      (CheckEzI2Cbuffer P act2 (CheckEzI2Cbuffer P act b).1).1.length = 8 ∧
      (CheckEzI2Cbuffer P act2 (CheckEzI2Cbuffer P act b).1).1 =
        if GatePasses P act2 then
          [0x00, b.getD 1 0, 0x00, b.getD 3 0, b.getD 4 0, 0x01, 0xFF, 0x17]
        else
          [0x00, b.getD 1 0, 0x00, b.getD 3 0, b.getD 4 0, 0x01, 0x00, 0x17] := by
  obtain ⟨b0, b1, b2, b3, b4, b5, b6, b7, rfl⟩ := length_eight b hlen
  obtain ⟨h0, h2⟩ := hwf
  simp only [List.getD_cons_zero, List.getD_cons_succ] at h0 h2 ⊢
  subst h0
  subst h2
  rw [check_valid P act b1 b3 b4 b5 b6 b7 hg]
  refine ⟨rfl, by simp [actuatorCalls], rfl, rfl, rfl, rfl, by simp [WellFormed], ?_⟩
  intro act2
  by_cases hg2 : GatePasses P act2
  · obtain ⟨hb, ha⟩ := check_invalid P act2 0x00 b1 0x00 b3 b4 0x01 0x00 0x17 hg2
      (Or.inl (by decide))
    refine ⟨ha, ?_, by rw [hb]; rfl, by rw [hb]; rfl, by rw [hb]; rfl, by rw [hb, if_pos hg2]⟩
    intro v hv
    have hmem : v ∈ actuatorCalls
        (CheckEzI2Cbuffer P act2 [0x00, b1, 0x00, b3, b4, 0x01, 0x00, 0x17]).2 := by
      unfold actuatorCalls
      rw [List.mem_filterMap]
      exact ⟨_, hv, rfl⟩
    rw [ha] at hmem
    exact absurd hmem (List.not_mem_nil v)
  · rw [check_closed P act2 _ hg2]
    refine ⟨rfl, ?_, rfl, rfl, rfl, by rw [if_neg hg2]⟩
    intro v hv
    simp at hv

/-- Witness of C7: the command frame [0x01, 0xFF, 0x17], checked twice with
the write-completed flag set: the first check calls the actuator with 0xFF and
clears the markers, the second calls nothing and only sets the reply status
to 0xFF. -/
theorem C7_consume_once_witness :
    (CheckEzI2Cbuffer psoc4 0x02 [0x01, 0xFF, 0x17, 9, 8, 7, 6, 5]).1 =
      [0x00, 0xFF, 0x00, 9, 8, 0x01, 0x00, 0x17] ∧
    actuatorCalls (CheckEzI2Cbuffer psoc4 0x02 [0x01, 0xFF, 0x17, 9, 8, 7, 6, 5]).2 = [0xFF] ∧
    actuatorCalls (CheckEzI2Cbuffer psoc4 0x02
      (CheckEzI2Cbuffer psoc4 0x02 [0x01, 0xFF, 0x17, 9, 8, 7, 6, 5]).1).2 = [] ∧
    (CheckEzI2Cbuffer psoc4 0x02
      (CheckEzI2Cbuffer psoc4 0x02 [0x01, 0xFF, 0x17, 9, 8, 7, 6, 5]).1).1 =
      [0x00, 0xFF, 0x00, 9, 8, 0x01, 0xFF, 0x17] :=
  ⟨(C7_consume_once psoc4 0x02 [0x01, 0xFF, 0x17, 9, 8, 7, 6, 5] rfl
      ⟨rfl, rfl⟩ ⟨by decide, by decide⟩).1,
    (C7_consume_once psoc4 0x02 [0x01, 0xFF, 0x17, 9, 8, 7, 6, 5] rfl
      ⟨rfl, rfl⟩ ⟨by decide, by decide⟩).2.1,
    ((C7_consume_once psoc4 0x02 [0x01, 0xFF, 0x17, 9, 8, 7, 6, 5] rfl
      ⟨rfl, rfl⟩ ⟨by decide, by decide⟩).2.2.2.2.2.2.2 0x02).1,
    (((C7_consume_once psoc4 0x02 [0x01, 0xFF, 0x17, 9, 8, 7, 6, 5] rfl
      ⟨rfl, rfl⟩ ⟨by decide, by decide⟩).2.2.2.2.2.2.2 0x02).2.2.2.2.2).trans
      (if_pos (by decide))⟩

/-! ## Both roles -/

/-- C8: reply round-trip.  For every 8-byte shared buffer and every
gate-passing activity value, the buffer left by `CheckEzI2Cbuffer`, received
unchanged by an accepted, timely, error-free `ReadStatusPacketFromEzI2C`, is
decoded as `TRANSFER_CMPLT` when the inbound frame was well-formed and as
`TRANSFER_ERROR` when it was malformed.  The reply offsets of the two roles
agree, and `CheckEzI2Cbuffer` changes no byte outside offsets 5..7 other than
the inbound markers at offsets 0 and 2 of a well-formed frame. -/
theorem C8_reply_round_trip (P : Pdl) (act : Nat) (b : List Nat) (t : Transport) (j : Nat)
    (hlen : b.length = 8) (hg : GatePasses P act)
    (hs : t.submit = P.CY_SCB_I2C_SUCCESS) (hj : j + 1 < TIMEOUT_INIT)
    (hf : FirstIdle P t j) (he : NoErrorFlag P (t.status j)) :
    (WellFormed b →
      (ReadStatusPacketFromEzI2C P { t with rx := (CheckEzI2Cbuffer P act b).1 }).1 =
        TRANSFER_CMPLT) ∧
    (¬ WellFormed b →
      (ReadStatusPacketFromEzI2C P { t with rx := (CheckEzI2Cbuffer P act b).1 }).1 =
        TRANSFER_ERROR) ∧
    (∀ i, i ≠ 5 → i ≠ 6 → i ≠ 7 → (¬ WellFormed b ∨ (i ≠ 0 ∧ i ≠ 2)) →
      (CheckEzI2Cbuffer P act b).1.getD i 0 = b.getD i 0) ∧
    (CheckEzI2Cbuffer P act b).1.length = 8 ∧
    EZI2C_RPLY_SOP_POS = PACKET_RPLY_SOP_POS ∧ EZI2C_RPLY_STS_POS = PACKET_RPLY_STS_POS ∧
    EZI2C_RPLY_EOP_POS = PACKET_RPLY_EOP_POS ∧ READ_PACKET_SIZE = EZI2C_BUFFER_SIZE := by
  obtain ⟨b0, b1, b2, b3, b4, b5, b6, b7, rfl⟩ := length_eight b hlen
  have hread : ∀ rx : List Nat, (ReadStatusPacketFromEzI2C P { t with rx := rx }).1 =
      if ReplyDone rx then TRANSFER_CMPLT else TRANSFER_ERROR := by
    intro rx
    rw [read_idle P { t with rx := rx } j hs hj hf]
    simp [show NoErrorFlag P (t.status j) from he]
  by_cases hwf : WellFormed [b0, b1, b2, b3, b4, b5, b6, b7]
  · obtain ⟨h0, h2⟩ := hwf
    simp only [List.getD_cons_zero, List.getD_cons_succ] at h0 h2
    subst h0
    subst h2
    have hwf : WellFormed [0x01, b1, 0x17, b3, b4, b5, b6, b7] := ⟨rfl, rfl⟩
    rw [check_valid P act b1 b3 b4 b5 b6 b7 hg, hread]
    refine ⟨fun _ => by simp [ReplyDone], fun h => absurd hwf h, ?_, rfl, rfl, rfl, rfl, rfl⟩
    intro i h5 h6 h7 hi
    rcases hi with hi | ⟨hi0, hi2⟩
    · exact absurd hwf hi
    · rcases i with _ | _ | _ | _ | _ | _ | _ | _ | i <;> simp_all
  · have hbad : b0 ≠ 0x01 ∨ b2 ≠ 0x17 := by
      by_contra hcon
      push_neg at hcon
      exact hwf ⟨hcon.1, hcon.2⟩
    obtain ⟨hb, _⟩ := check_invalid P act b0 b1 b2 b3 b4 b5 b6 b7 hg hbad
    rw [hb, hread]
    refine ⟨fun h => absurd h hwf, fun _ => by simp [ReplyDone, TRANSFER_ERROR, TRANSFER_CMPLT],
      ?_, rfl, rfl, rfl, rfl, rfl⟩
    intro i h5 h6 h7 _
    rcases i with _ | _ | _ | _ | _ | _ | _ | _ | i <;> simp_all

/-- Witness of C8: the command frame [0x01, 0xFF, 0x17] is answered with a
reply that the master decodes as complete. -/
theorem C8_reply_round_trip_witness :
    (ReadStatusPacketFromEzI2C psoc4
      { doneTransport with
        rx := (CheckEzI2Cbuffer psoc4 0x02 [0x01, 0xFF, 0x17, 9, 8, 7, 6, 5]).1 }).1 =
      TRANSFER_CMPLT :=
  (C8_reply_round_trip psoc4 0x02 [0x01, 0xFF, 0x17, 9, 8, 7, 6, 5] doneTransport 0 rfl
    ⟨by decide, by decide⟩ rfl (by decide)
    ⟨fun i hi => absurd hi (Nat.not_lt_zero i), by decide⟩ (by decide)).1 ⟨rfl, rfl⟩

/-! ## Interrupt masking, the main loop and the polling budget -/

/-- The four paths through `CheckEzI2Cbuffer`: the effects between the
masking and the unmasking of the interrupt. -/
theorem check_paths (P : Pdl) (act : Nat) (b : List Nat) :
    ∃ mid, (CheckEzI2Cbuffer P act b).2 =
        Event.NVIC_DisableIRQ P.CYBSP_EZI2C_IRQ :: mid ++
          [Event.NVIC_EnableIRQ P.CYBSP_EZI2C_IRQ] ∧
      (mid = [Event.Cy_SCB_EZI2C_GetActivity] ∨
       mid = [Event.Cy_SCB_EZI2C_GetActivity, Event.BufferRead 0, Event.BufferWrite 5 0x01,
          Event.BufferWrite 6 0xFF, Event.BufferWrite 7 0x17] ∨
       mid = [Event.Cy_SCB_EZI2C_GetActivity, Event.BufferRead 0, Event.BufferRead 2,
          Event.BufferWrite 5 0x01, Event.BufferWrite 6 0xFF, Event.BufferWrite 7 0x17] ∨
       mid = [Event.Cy_SCB_EZI2C_GetActivity, Event.BufferRead 0, Event.BufferRead 2,
          Event.BufferRead 1, Event.Cy_GPIO_Write (b.getD 1 0), Event.BufferWrite 0 0,
          Event.BufferWrite 2 0, Event.BufferWrite 5 0x01, Event.BufferWrite 6 0x00,
          Event.BufferWrite 7 0x17]) := by
  by_cases hg : 0 ≠ act &&& P.CY_SCB_EZI2C_STATUS_WRITE1 ∧ 0 = act &&& P.CY_SCB_EZI2C_STATUS_ERR
  · by_cases h0 : b.getD EzPACKET_SOP_POS 0 = PACKET_SOP
    · by_cases h2 : b.getD EzPACKET_EOP_POS 0 = PACKET_EOP
      · refine ⟨_, ?_, Or.inr (Or.inr (Or.inr rfl))⟩
        simp only [CheckEzI2Cbuffer, if_pos hg, if_pos h0, if_pos h2]
        rfl
      · refine ⟨_, ?_, Or.inr (Or.inr (Or.inl rfl))⟩
        simp only [CheckEzI2Cbuffer, if_pos hg, if_pos h0, if_neg h2, replyFail]
        rfl
    · refine ⟨_, ?_, Or.inr (Or.inl rfl)⟩
      simp only [CheckEzI2Cbuffer, if_pos hg, if_neg h0, replyFail]
      rfl
  · refine ⟨_, ?_, Or.inl rfl⟩
    simp only [CheckEzI2Cbuffer, if_neg hg]

/-- C12: interrupt masking brackets the whole check.  On every path through
`CheckEzI2Cbuffer` the effects are one `NVIC_DisableIRQ` of the EZI2C interrupt
source, then effects that are each the activity query, a read or write of the
shared buffer or the actuator call (the activity query first), then one
`NVIC_EnableIRQ` of the same source; no other masking or unmasking occurs.
The source is masked after every proper non-empty prefix of the effects and
unmasked after all of them. -/
theorem C12_interrupt_masking_brackets (P : Pdl) (act : Nat) (b : List Nat) :
    ∃ mid, (CheckEzI2Cbuffer P act b).2 =
        Event.NVIC_DisableIRQ P.CYBSP_EZI2C_IRQ :: mid ++
          [Event.NVIC_EnableIRQ P.CYBSP_EZI2C_IRQ] ∧
      (∀ e, e ∈ mid → Guarded e) ∧
      mid.head? = some Event.Cy_SCB_EZI2C_GetActivity ∧
      (∀ s, (CheckEzI2Cbuffer P act b).2.count (Event.NVIC_DisableIRQ s) =
        if s = P.CYBSP_EZI2C_IRQ then 1 else 0) ∧
      (∀ s, (CheckEzI2Cbuffer P act b).2.count (Event.NVIC_EnableIRQ s) =
        if s = P.CYBSP_EZI2C_IRQ then 1 else 0) ∧
      irqMasked P.CYBSP_EZI2C_IRQ false (CheckEzI2Cbuffer P act b).2 = false ∧
      (∀ k, 0 < k → k < (CheckEzI2Cbuffer P act b).2.length →
        irqMasked P.CYBSP_EZI2C_IRQ false ((CheckEzI2Cbuffer P act b).2.take k) = true) := by
  obtain ⟨mid, htr, hcases⟩ := check_paths P act b
  refine ⟨mid, htr, ?_⟩
  rw [htr]
  rcases hcases with rfl | rfl | rfl | rfl
  all_goals
    refine ⟨?_, rfl, ?_, ?_, ?_, ?_⟩
    · simp [Guarded]
    · intro s
      by_cases hs : s = P.CYBSP_EZI2C_IRQ
      · subst hs; simp [List.count_cons]
      · have hs' : ¬ P.CYBSP_EZI2C_IRQ = s := fun h => hs h.symm
        simp [List.count_cons, hs, hs']
    · intro s
      by_cases hs : s = P.CYBSP_EZI2C_IRQ
      · subst hs; simp [List.count_cons]
      · have hs' : ¬ P.CYBSP_EZI2C_IRQ = s := fun h => hs h.symm
        simp [List.count_cons, hs, hs']
    · simp [irqMasked]
    · intro k hk1 hk2
      simp only [List.cons_append, List.nil_append, List.length_cons, List.length_nil] at hk2
      interval_cases k <;> simp [irqMasked]

/-- Witness of C12: the check of a well-formed frame leaves the interrupt
source unmasked. -/
theorem C12_interrupt_masking_brackets_witness :
    irqMasked psoc4.CYBSP_EZI2C_IRQ false
      (CheckEzI2Cbuffer psoc4 0x02 [0x01, 0xFF, 0x17, 9, 8, 7, 6, 5]).2 = false := by
  obtain ⟨_, _, _, _, _, _, h, _⟩ :=
    C12_interrupt_masking_brackets psoc4 0x02 [0x01, 0xFF, 0x17, 9, 8, 7, 6, 5]
  exact h

/-- No actuator call occurs among the status queries and delays. -/
theorem actuatorCalls_pollEvents (P : Pdl) (n : Nat) : actuatorCalls (pollEvents P n) = [] := by
  unfold actuatorCalls
  rw [List.filterMap_eq_nil_iff]
  intro e he
  rcases mem_pollEvents P n e he with rfl | rfl <;> rfl

/-- The write operation makes no actuator call. -/
theorem write_no_actuator (P : Pdl) (t : Transport) (wb : List Nat) (sz : Nat) :
    actuatorCalls (WritePacketToEzI2C P t wb sz).2 = [] := by
  obtain ⟨n, _, _, h, _, _⟩ := pollLoop_passes P t [Event.Cy_SCB_I2C_MasterWrite wb sz]
  have hp := actuatorCalls_pollEvents P n
  unfold actuatorCalls at hp ⊢
  simp only [WritePacketToEzI2C, h]
  split_ifs <;> simp [List.filterMap_append, hp]

/-- The read operation makes no actuator call. -/
theorem read_no_actuator (P : Pdl) (t : Transport) :
    actuatorCalls (ReadStatusPacketFromEzI2C P t).2 = [] := by
  obtain ⟨n, _, _, h, _, _⟩ :=
    pollLoop_passes P t [Event.Cy_SCB_I2C_MasterRead READ_PACKET_SIZE]
  have hp := actuatorCalls_pollEvents P n
  unfold actuatorCalls at hp ⊢
  simp only [ReadStatusPacketFromEzI2C, h]
  split_ifs <;> simp [List.filterMap_append, hp]

/-- The actuator calls of the effects of an operation, seen as effects of the
main loop. -/
theorem mainActuatorCalls_op (tr : List Event) :
    mainActuatorCalls (tr.map MainEvent.op) = actuatorCalls tr := by
  induction tr with
  | nil => rfl
  | cons e tr ih =>
    cases e <;> simp_all [mainActuatorCalls, actuatorCalls, List.filterMap_cons]

/-- The effects of an operation contain no inter-command delay. -/
theorem mainDelays_op (tr : List Event) : mainDelays (tr.map MainEvent.op) = [] := by
  induction tr with
  | nil => rfl
  | cons e tr ih => simp_all [mainDelays, List.filterMap_cons]

/-- The write operation on the transport that answers with an address NAK. -/
theorem write_nak (wb : List Nat) (sz : Nat) :
    WritePacketToEzI2C psoc4 nakTransport wb sz =
      (TRANSFER_ERROR, [Event.Cy_SCB_I2C_MasterWrite wb sz, Event.Cy_SCB_I2C_MasterGetStatus,
        Event.Cy_SysLib_DelayUs 1]) := by
  rw [write_idle psoc4 nakTransport wb sz 0 rfl (by decide)
    ⟨fun i hi => absurd hi (Nat.not_lt_zero i), by decide⟩]
  have he : ¬ NoErrorFlag psoc4 (nakTransport.status 0) := by decide
  rw [if_neg he]
  rfl

/-- The read operation on the transport that answers with an address NAK. -/
theorem read_nak :
    ReadStatusPacketFromEzI2C psoc4 nakTransport =
      (TRANSFER_ERROR, [Event.Cy_SCB_I2C_MasterRead READ_PACKET_SIZE,
        Event.Cy_SCB_I2C_MasterGetStatus, Event.Cy_SysLib_DelayUs 1]) := by
  rw [read_idle psoc4 nakTransport 0 rfl (by decide)
    ⟨fun i hi => absurd hi (Nat.not_lt_zero i), by decide⟩]
  have he : ¬ (NoErrorFlag psoc4 (nakTransport.status 0) ∧ ReplyDone nakTransport.rx) := by
    decide
  rw [if_neg he]
  rfl

/-- The write operation on the transport that completes at once with four
bytes transferred. -/
theorem write_full (wb : List Nat) (sz : Nat) :
    WritePacketToEzI2C psoc4 fullTransport wb sz =
      (TRANSFER_CMPLT, [Event.Cy_SCB_I2C_MasterWrite wb sz, Event.Cy_SCB_I2C_MasterGetStatus,
        Event.Cy_SysLib_DelayUs 1, Event.Cy_SCB_I2C_MasterGetTransferCount]) := by
  rw [write_idle psoc4 fullTransport wb sz 0 rfl (by decide)
    ⟨fun i hi => absurd hi (Nat.not_lt_zero i), by decide⟩]
  have he : NoErrorFlag psoc4 (fullTransport.status 0) := by decide
  have hc : WRITE_PACKET_SIZE = fullTransport.count := by decide
  rw [if_pos he, if_pos hc]
  rfl

/-- C13, as stated, fails.  In an iteration whose write ends with an address
NAK and returns `TRANSFER_ERROR`, the iteration consists of the write alone: the
1000 ms delay is not executed.  In an iteration whose write completes and whose
read ends with an address NAK and returns `TRANSFER_ERROR`, `CheckEzI2Cbuffer`
still runs and, the shared buffer holding the frame just written, calls the
actuator. -/
theorem C13_failed_cycle_counterexample :
    (WritePacketToEzI2C psoc4 writeFails.write [0x00, 0x01, 0x00, 0x17] WRITE_PACKET_SIZE).1 =
      TRANSFER_ERROR ∧
    mainIteration psoc4 kit writeFails (ON kit) [0, 0, 0, 0] [0x01, 0x00, 0x17, 0, 0, 0, 0, 0] =
      { cmd := ON kit
        buffer := [0x00, 0x01, 0x00, 0x17]
        shared := [0x01, 0x00, 0x17, 0, 0, 0, 0, 0]
        trace := [MainEvent.op (Event.Cy_SCB_I2C_MasterWrite [0x00, 0x01, 0x00, 0x17] 4),
          MainEvent.op Event.Cy_SCB_I2C_MasterGetStatus,
          MainEvent.op (Event.Cy_SysLib_DelayUs 1)] } ∧
    mainDelays (mainIteration psoc4 kit writeFails (ON kit) [0, 0, 0, 0]
      [0x01, 0x00, 0x17, 0, 0, 0, 0, 0]).trace = [] ∧
    (WritePacketToEzI2C psoc4 readFails.write [0x00, 0x01, 0x00, 0x17] WRITE_PACKET_SIZE).1 =
      TRANSFER_CMPLT ∧
    (ReadStatusPacketFromEzI2C psoc4 readFails.read).1 = TRANSFER_ERROR ∧
    mainIteration psoc4 kit readFails (ON kit) [0, 0, 0, 0] [0x01, 0x00, 0x17, 0, 0, 0, 0, 0] =
      { cmd := ON kit
        buffer := [0x00, 0x01, 0x00, 0x17]
        shared := [0x00, 0x00, 0x00, 0, 0, 0x01, 0x00, 0x17]
        trace := [MainEvent.op (Event.Cy_SCB_I2C_MasterWrite [0x00, 0x01, 0x00, 0x17] 4),
          MainEvent.op Event.Cy_SCB_I2C_MasterGetStatus,
          MainEvent.op (Event.Cy_SysLib_DelayUs 1),
          MainEvent.op Event.Cy_SCB_I2C_MasterGetTransferCount,
          MainEvent.op (Event.Cy_SCB_I2C_MasterRead 8),
          MainEvent.op Event.Cy_SCB_I2C_MasterGetStatus,
          MainEvent.op (Event.Cy_SysLib_DelayUs 1),
          MainEvent.op (Event.NVIC_DisableIRQ 0),
          MainEvent.op Event.Cy_SCB_EZI2C_GetActivity,
          MainEvent.op (Event.BufferRead 0), MainEvent.op (Event.BufferRead 2),
          MainEvent.op (Event.BufferRead 1), MainEvent.op (Event.Cy_GPIO_Write 0x00),
          MainEvent.op (Event.BufferWrite 0 0), MainEvent.op (Event.BufferWrite 2 0),
          MainEvent.op (Event.BufferWrite 5 0x01), MainEvent.op (Event.BufferWrite 6 0x00),
          MainEvent.op (Event.BufferWrite 7 0x17),
          MainEvent.op (Event.NVIC_EnableIRQ 0),
          MainEvent.Cy_SysLib_Delay 1000] } ∧
    mainActuatorCalls (mainIteration psoc4 kit readFails (ON kit) [0, 0, 0, 0]
      [0x01, 0x00, 0x17, 0, 0, 0, 0, 0]).trace = [0x00] := by
  have ha : mainIteration psoc4 kit writeFails (ON kit) [0, 0, 0, 0]
      [0x01, 0x00, 0x17, 0, 0, 0, 0, 0] =
      { cmd := ON kit
        buffer := [0x00, 0x01, 0x00, 0x17]
        shared := [0x01, 0x00, 0x17, 0, 0, 0, 0, 0]
        trace := [MainEvent.op (Event.Cy_SCB_I2C_MasterWrite [0x00, 0x01, 0x00, 0x17] 4),
          MainEvent.op Event.Cy_SCB_I2C_MasterGetStatus,
          MainEvent.op (Event.Cy_SysLib_DelayUs 1)] } := by
    simp only [mainIteration, writeFails, write_nak]
    decide
  have hb : mainIteration psoc4 kit readFails (ON kit) [0, 0, 0, 0]
      [0x01, 0x00, 0x17, 0, 0, 0, 0, 0] =
      { cmd := ON kit
        buffer := [0x00, 0x01, 0x00, 0x17]
        shared := [0x00, 0x00, 0x00, 0, 0, 0x01, 0x00, 0x17]
        trace := [MainEvent.op (Event.Cy_SCB_I2C_MasterWrite [0x00, 0x01, 0x00, 0x17] 4),
          MainEvent.op Event.Cy_SCB_I2C_MasterGetStatus,
          MainEvent.op (Event.Cy_SysLib_DelayUs 1),
          MainEvent.op Event.Cy_SCB_I2C_MasterGetTransferCount,
          MainEvent.op (Event.Cy_SCB_I2C_MasterRead 8),
          MainEvent.op Event.Cy_SCB_I2C_MasterGetStatus,
          MainEvent.op (Event.Cy_SysLib_DelayUs 1),
          MainEvent.op (Event.NVIC_DisableIRQ 0),
          MainEvent.op Event.Cy_SCB_EZI2C_GetActivity,
          MainEvent.op (Event.BufferRead 0), MainEvent.op (Event.BufferRead 2),
          MainEvent.op (Event.BufferRead 1), MainEvent.op (Event.Cy_GPIO_Write 0x00),
          MainEvent.op (Event.BufferWrite 0 0), MainEvent.op (Event.BufferWrite 2 0),
          MainEvent.op (Event.BufferWrite 5 0x01), MainEvent.op (Event.BufferWrite 6 0x00),
          MainEvent.op (Event.BufferWrite 7 0x17),
          MainEvent.op (Event.NVIC_EnableIRQ 0),
          MainEvent.Cy_SysLib_Delay 1000] } := by
    simp only [mainIteration, readFails, write_full, read_nak]
    decide
  refine ⟨?_, ha, ?_, ?_, ?_, hb, ?_⟩
  · simp only [writeFails, write_nak]
  · rw [ha]; decide
  · simp only [readFails, write_full]
  · simp only [readFails, read_nak]
  · rw [hb]; decide

/-- C13, amended.  In an iteration of the main loop in which
`WritePacketToEzI2C` returns `TRANSFER_ERROR`, the write is the only thing the
iteration does: no actuator call, the command byte and the EZI2C buffer are
unchanged, and no `Cy_SysLib_Delay` is executed.  In an iteration in which the
write returns `TRANSFER_CMPLT` and `ReadStatusPacketFromEzI2C` returns
`TRANSFER_ERROR`, the command byte is unchanged, `CheckEzI2Cbuffer` runs after
the read and the actuator calls of the iteration are exactly those it makes,
and the iteration ends with the one delay of 1000 ms.  In such an iteration
the actuator is called once, with the command byte of the shared buffer, and
the frame is consumed, when the gate passes and the 8-byte shared buffer holds
a well-formed frame; it is not called, and the reply status Fail is written,
when the gate passes and the frame is malformed; it is not called, and the
shared buffer is unchanged, when the gate does not pass. -/
theorem C13_failed_cycle (P : Pdl) (B : Board) (env : Cycle) (cmd : Nat)
    (buffer shared : List Nat) :
    ((WritePacketToEzI2C P env.write (commandPacket B cmd buffer) WRITE_PACKET_SIZE).1 =
        TRANSFER_ERROR →
      (mainIteration P B env cmd buffer shared).cmd = cmd ∧
      (mainIteration P B env cmd buffer shared).shared = shared ∧
      (mainIteration P B env cmd buffer shared).trace =
        (WritePacketToEzI2C P env.write (commandPacket B cmd buffer) WRITE_PACKET_SIZE).2.map
          MainEvent.op ∧
      mainActuatorCalls (mainIteration P B env cmd buffer shared).trace = [] ∧
      mainDelays (mainIteration P B env cmd buffer shared).trace = []) ∧
    ((WritePacketToEzI2C P env.write (commandPacket B cmd buffer) WRITE_PACKET_SIZE).1 =
        TRANSFER_CMPLT →
      (ReadStatusPacketFromEzI2C P env.read).1 = TRANSFER_ERROR →
      (mainIteration P B env cmd buffer shared).cmd = cmd ∧
      (mainIteration P B env cmd buffer shared).shared =
        (CheckEzI2Cbuffer P env.activity shared).1 ∧
      (mainIteration P B env cmd buffer shared).trace =
        (WritePacketToEzI2C P env.write (commandPacket B cmd buffer) WRITE_PACKET_SIZE).2.map
            MainEvent.op ++
          (ReadStatusPacketFromEzI2C P env.read).2.map MainEvent.op ++
          (CheckEzI2Cbuffer P env.activity shared).2.map MainEvent.op ++
          [MainEvent.Cy_SysLib_Delay 1000] ∧
      mainActuatorCalls (mainIteration P B env cmd buffer shared).trace =
        actuatorCalls (CheckEzI2Cbuffer P env.activity shared).2 ∧
      mainDelays (mainIteration P B env cmd buffer shared).trace = [1000]) ∧
    ((WritePacketToEzI2C P env.write (commandPacket B cmd buffer) WRITE_PACKET_SIZE).1 =
        TRANSFER_CMPLT →
      (ReadStatusPacketFromEzI2C P env.read).1 = TRANSFER_ERROR →
      (shared.length = 8 → WellFormed shared → GatePasses P env.activity →
        mainActuatorCalls (mainIteration P B env cmd buffer shared).trace =
          [shared.getD 1 0] ∧
        (mainIteration P B env cmd buffer shared).shared =
          [0x00, shared.getD 1 0, 0x00, shared.getD 3 0, shared.getD 4 0, 0x01, 0x00, 0x17]) ∧
      (shared.length = 8 → ¬ WellFormed shared → GatePasses P env.activity →
        mainActuatorCalls (mainIteration P B env cmd buffer shared).trace = [] ∧
        (mainIteration P B env cmd buffer shared).shared =
          [shared.getD 0 0, shared.getD 1 0, shared.getD 2 0, shared.getD 3 0,
            shared.getD 4 0, 0x01, 0xFF, 0x17]) ∧
      (¬ GatePasses P env.activity →
        mainActuatorCalls (mainIteration P B env cmd buffer shared).trace = [] ∧
        (mainIteration P B env cmd buffer shared).shared = shared)) := by
  have hne : TRANSFER_CMPLT ≠ TRANSFER_ERROR := by decide
  have hread : (WritePacketToEzI2C P env.write (commandPacket B cmd buffer)
        WRITE_PACKET_SIZE).1 = TRANSFER_CMPLT →
      (ReadStatusPacketFromEzI2C P env.read).1 = TRANSFER_ERROR →
      (mainIteration P B env cmd buffer shared).cmd = cmd ∧
      (mainIteration P B env cmd buffer shared).shared =
        (CheckEzI2Cbuffer P env.activity shared).1 ∧
      (mainIteration P B env cmd buffer shared).trace =
        (WritePacketToEzI2C P env.write (commandPacket B cmd buffer) WRITE_PACKET_SIZE).2.map
            MainEvent.op ++
          (ReadStatusPacketFromEzI2C P env.read).2.map MainEvent.op ++
          (CheckEzI2Cbuffer P env.activity shared).2.map MainEvent.op ++
          [MainEvent.Cy_SysLib_Delay 1000] ∧
      mainActuatorCalls (mainIteration P B env cmd buffer shared).trace =
        actuatorCalls (CheckEzI2Cbuffer P env.activity shared).2 ∧
      mainDelays (mainIteration P B env cmd buffer shared).trace = [1000] := by
    intro hw hr
    have hc : TRANSFER_CMPLT =
        (WritePacketToEzI2C P env.write (commandPacket B cmd buffer) WRITE_PACKET_SIZE).1 :=
      hw.symm
    have hc' : ¬ TRANSFER_CMPLT = (ReadStatusPacketFromEzI2C P env.read).1 := by
      rw [hr]; exact hne
    simp only [mainIteration, if_pos hc, if_neg hc']
    refine ⟨trivial, trivial, rfl, ?_, ?_⟩
    · have h1 := mainActuatorCalls_op
        (WritePacketToEzI2C P env.write (commandPacket B cmd buffer) WRITE_PACKET_SIZE).2
      have h2 := mainActuatorCalls_op (ReadStatusPacketFromEzI2C P env.read).2
      have h3 := mainActuatorCalls_op (CheckEzI2Cbuffer P env.activity shared).2
      rw [write_no_actuator] at h1
      rw [read_no_actuator] at h2
      unfold mainActuatorCalls at h1 h2 h3 ⊢
      simp only [List.filterMap_append, h1, h2, h3, List.nil_append]
      simp
    · have h1 := mainDelays_op
        (WritePacketToEzI2C P env.write (commandPacket B cmd buffer) WRITE_PACKET_SIZE).2
      have h2 := mainDelays_op (ReadStatusPacketFromEzI2C P env.read).2
      have h3 := mainDelays_op (CheckEzI2Cbuffer P env.activity shared).2
      unfold mainDelays at h1 h2 h3 ⊢
      simp only [List.filterMap_append, h1, h2, h3, List.nil_append]
      simp [CMD_TO_CMD_DELAY]
  refine ⟨?_, hread, ?_⟩
  · intro hw
    have hc : ¬ TRANSFER_CMPLT =
        (WritePacketToEzI2C P env.write (commandPacket B cmd buffer) WRITE_PACKET_SIZE).1 := by
      rw [hw]; exact hne
    simp only [mainIteration, if_neg hc]
    refine ⟨trivial, trivial, trivial, ?_, mainDelays_op _⟩
    rw [mainActuatorCalls_op, write_no_actuator]
  · intro hw hr
    obtain ⟨_, hsh, _, hact, _⟩ := hread hw hr
    rw [hsh, hact]
    refine ⟨?_, ?_, ?_⟩
    · intro hlen hwf hg
      obtain ⟨s0, s1, s2, s3, s4, s5, s6, s7, rfl⟩ := length_eight shared hlen
      obtain ⟨h0, h2⟩ := hwf
      simp only [List.getD_cons_zero, List.getD_cons_succ] at h0 h2 ⊢
      subst h0
      subst h2
      rw [check_valid P env.activity s1 s3 s4 s5 s6 s7 hg]
      exact ⟨by simp [actuatorCalls], rfl⟩
    · intro hlen hwf hg
      obtain ⟨s0, s1, s2, s3, s4, s5, s6, s7, rfl⟩ := length_eight shared hlen
      have hbad : s0 ≠ 0x01 ∨ s2 ≠ 0x17 := by
        by_contra hcon
        push_neg at hcon
        exact hwf ⟨hcon.1, hcon.2⟩
      obtain ⟨hb, ha⟩ := check_invalid P env.activity s0 s1 s2 s3 s4 s5 s6 s7 hg hbad
      simp only [List.getD_cons_zero, List.getD_cons_succ]
      exact ⟨ha, hb⟩
    · intro hg
      rw [check_closed P env.activity shared hg]
      exact ⟨rfl, rfl⟩

/-- Witness of C13: the iteration whose write ends with an address NAK makes
no actuator call, leaves the command byte as it was and executes no delay; the
iteration whose write completes and whose read ends with an address NAK calls
the actuator with the command byte 0x00 found in the shared buffer, consumes
the frame and leaves the command byte as it was. -/
theorem C13_failed_cycle_witness :
    (mainIteration psoc4 kit writeFails (ON kit) [0, 0, 0, 0]
      [0x01, 0x00, 0x17, 0, 0, 0, 0, 0]).cmd = ON kit ∧
    mainActuatorCalls (mainIteration psoc4 kit writeFails (ON kit) [0, 0, 0, 0]
      [0x01, 0x00, 0x17, 0, 0, 0, 0, 0]).trace = [] ∧
    mainDelays (mainIteration psoc4 kit writeFails (ON kit) [0, 0, 0, 0]
      [0x01, 0x00, 0x17, 0, 0, 0, 0, 0]).trace = [] ∧
    (mainIteration psoc4 kit readFails (ON kit) [0, 0, 0, 0]
      [0x01, 0x00, 0x17, 0, 0, 0, 0, 0]).cmd = ON kit ∧
    mainActuatorCalls (mainIteration psoc4 kit readFails (ON kit) [0, 0, 0, 0]
      [0x01, 0x00, 0x17, 0, 0, 0, 0, 0]).trace = [0x00] ∧
    (mainIteration psoc4 kit readFails (ON kit) [0, 0, 0, 0]
      [0x01, 0x00, 0x17, 0, 0, 0, 0, 0]).shared = [0x00, 0x00, 0x00, 0, 0, 0x01, 0x00, 0x17] ∧
    mainDelays (mainIteration psoc4 kit readFails (ON kit) [0, 0, 0, 0]
      [0x01, 0x00, 0x17, 0, 0, 0, 0, 0]).trace = [1000] :=
  ⟨((C13_failed_cycle psoc4 kit writeFails (ON kit) [0, 0, 0, 0]
      [0x01, 0x00, 0x17, 0, 0, 0, 0, 0]).1 (congrArg Prod.fst (write_nak _ _))).1,
    ((C13_failed_cycle psoc4 kit writeFails (ON kit) [0, 0, 0, 0]
      [0x01, 0x00, 0x17, 0, 0, 0, 0, 0]).1 (congrArg Prod.fst (write_nak _ _))).2.2.2.1,
    ((C13_failed_cycle psoc4 kit writeFails (ON kit) [0, 0, 0, 0]
      [0x01, 0x00, 0x17, 0, 0, 0, 0, 0]).1 (congrArg Prod.fst (write_nak _ _))).2.2.2.2,
    ((C13_failed_cycle psoc4 kit readFails (ON kit) [0, 0, 0, 0]
      [0x01, 0x00, 0x17, 0, 0, 0, 0, 0]).2.1 (congrArg Prod.fst (write_full _ _))
      (congrArg Prod.fst read_nak)).1,
    (((C13_failed_cycle psoc4 kit readFails (ON kit) [0, 0, 0, 0]
      [0x01, 0x00, 0x17, 0, 0, 0, 0, 0]).2.2 (congrArg Prod.fst (write_full _ _))
      (congrArg Prod.fst read_nak)).1 rfl ⟨rfl, rfl⟩ ⟨by decide, by decide⟩).1,
    (((C13_failed_cycle psoc4 kit readFails (ON kit) [0, 0, 0, 0]
      [0x01, 0x00, 0x17, 0, 0, 0, 0, 0]).2.2 (congrArg Prod.fst (write_full _ _))
      (congrArg Prod.fst read_nak)).1 rfl ⟨rfl, rfl⟩ ⟨by decide, by decide⟩).2,
    ((C13_failed_cycle psoc4 kit readFails (ON kit) [0, 0, 0, 0]
      [0x01, 0x00, 0x17, 0, 0, 0, 0, 0]).2.1 (congrArg Prod.fst (write_full _ _))
      (congrArg Prod.fst read_nak)).2.2.2.2⟩

/-- Witness of C14: on the transport that completes at the first query, the
write makes one status query; and a million passes bring the countdown to
zero. -/
theorem C14_polling_bounded_witness :
    (WritePacketToEzI2C psoc4 doneTransport [0x00, 0x01, 0xFF, 0x17] 4).2.count
      Event.Cy_SCB_I2C_MasterGetStatus = 1 ∧
    ((pollBody psoc4 stuckTransport)^[1000000]
      { masterStatus := 0, timeout := TIMEOUT_INIT, polls := 0, trace := [] }).timeout = 0 := by
  constructor
  · obtain ⟨⟨n, _, _, _, _, _, _, _, _, _, hfirst, _, _, hcount⟩, _⟩ :=
      C14_polling_bounded psoc4 doneTransport [0x00, 0x01, 0xFF, 0x17] 4 []
    have hn : n = 1 :=
      hfirst 0 (by decide) ⟨fun i hi => absurd hi (Nat.not_lt_zero i), by decide⟩
    subst hn
    exact (hcount rfl).1
  · exact ((C14_polling_bounded psoc4 stuckTransport [] 0 []).2 1000000 (Nat.le_refl _)).1

end EzI2C
